import Mathlib

/-!
Verification of the output-descriptor engine (`cfdcore_descriptor.cpp`).

The descriptor module itself (checksum codec, structural parser, key
expression parser, AST validator, evaluator, re-serializer) is embedded
faithfully from the source.  External collaborators that the descriptor
module consumes (byte/script primitive types, elliptic-curve pubkeys,
BIP32 extended keys, WIF codec, address codec, the miniscript compiler,
taproot branch builder) are not part of the descriptor module; they are
modelled from the specification, each with a doc comment starting
`Modelled from the spec:`.  Strings are embedded as `List Char`, byte
vectors as `List Nat`, machine integers as `Nat` with explicit wrap
where overflow matters.
-/

/-- Error outcomes of the engine.  The C++ code throws `CfdException`
with a distinguishing message at each site; each constructor below
stands for one throw site (named after its message). -/
inductive DErr where
  | multipleSharp          -- "Multiple '#' symbols."
  | illegalChecksumData    -- "Illegal checksum data."
  | checksumLength         -- "Expected 8 character checksum."
  | invalidPayloadChar     -- "Invalid characters in payload."
  | checksumUnmatch        -- "Unmatch checksum."
  | childNodeEmpty         -- "Failed to child node empty."
  | analyzeNg              -- "Failed to analyze descriptor." (name empty / unknown name)
  | miniscriptFail         -- "Failed to analyze descriptor. parse miniscript fail."
  | topOnly                -- "The target can only exist at the top."
  | childNodeNum           -- "Failed to child node num."
  | multisigTaproot        -- "Failed to multisig. taproot is unsupported."
  | multisigNodeLow        -- "Failed to multisig node low."
  | multisigReqNum         -- "Failed to multisig require num."
  | multisigPubkeyNum      -- "Failed to multisig pubkey num."
  | scriptSizeOver         -- "Failed to script size over."
  | multisigUncompressed   -- "Failed to multisig uncompress pubkey. wsh is compress only."
  | wshParent              -- "Failed to wsh parent. only top or sh."
  | wpkhParent             -- "Failed to wpkh parent. only top or sh."
  | childScriptOnly        -- "Failed to check script type. child is script only."
  | childKeyOnly           -- "Failed to check key-hash type. child is key only."
  | taprootPkh             -- "Failed to taproot. pkh is unsupported."
  | uncompressedWitness    -- "Failed to unsing uncompressed pubkey."
  | taprootNodeNum         -- "Failed to taproot node num."
  | taprootUncompressed    -- "Failed to taproot uncompress pubkey. taproot is compress only."
  | taprootEmptyScript     -- "Failed to taproot. empty script."
  | extkeyPathWildcard     -- "Failed to extkey path. A '*' can only be specified at the end."
  | hardenedPubkey         -- "Failed to extPubkey. hardened is extPrivkey only."
  | taprootXonlyOnly       -- "Failed to taproot key. taproot is xonly pubkey only."
  | privkeyInvalid         -- "privkey invalid."
  | extkeyDeriveFail       -- modelled: BIP32 derivation failure inside ExtPubkey/ExtPrivkey
  | invalidHex             -- modelled: "hex to byte convert error." (ByteData constructor)
  | invalidPubkeyBytes     -- modelled: Pubkey/SchnorrPubkey constructor on bad bytes
  | invalidAddress         -- modelled: Address constructor failure
  | invalidExtkeyText      -- modelled: ExtPubkey/ExtPrivkey constructor on bad text
  | generateFromHdkey      -- "Failed to generate pubkey from hdkey."
  | miniscriptFromHdkey    -- "Failed to generate miniscript from hdkey."
  | miniscriptSingleChild  -- "Failed to invalid argument. miniscript is single child."
  | miniscriptNumberOnly   -- "Failed to invalid argument. number only."
  | stoulNoConversion      -- modelled: std::stoul throws std::invalid_argument
  | miniscriptParse        -- "Failed to parse miniscript."
  | invalidPubkeyData      -- "Invalid pubkey data."
  | keyDataFail            -- KeyData constructor failure rethrown for bracketed keys
  | bipFormatPkh           -- "invalid bip32 format. pkh is not using bip49 or bip84."
  | bipFormatWpkh49        -- "invalid bip32 format. bip49 is using sh-wpkh only."
  | bipFormatWpkh84        -- "invalid bip32 format. bip84 is using wpkh only."
  | bipFormatPk            -- "invalid bip32 format. pk is not using bip49 or bip84."
  | emptyArgument          -- "Failed to empty argument. need argument descriptor."
  | tapBranchFail          -- modelled: TapBranch::FromString failure
  | refRequiresKey         -- "If it is not a raw type, key or script is required."
  | emptyResult            -- modelled: out-of-bounds `list[0]` on an empty reference list
  | outOfFuel              -- recursion fuel exhausted (never happens for fuel ≥ input size)
deriving Repr, DecidableEq

-- ---------------------------------------------------------------------------
-- Checksum codec (DescriptorNode::GenerateChecksum / CheckChecksum)
-- ---------------------------------------------------------------------------

/-- The 95-character input charset of `GenerateChecksum` (`kInputCharset`),
in source order.  Characters that the task grammar cannot carry literally
are written via `Char.ofNat`: 39 `'`, 123 and 125 (braces), 96 (backtick),
34 (double quote), 92 (backslash). -/
def kInputCharset : List Char :=
  ['0', '1', '2', '3', '4', '5', '6', '7', '8', '9',
   '(', ')', '[', ']', ',', Char.ofNat 39, '/', '*',
   'a', 'b', 'c', 'd', 'e', 'f', 'g', 'h',
   '@', ':', '$', '%', Char.ofNat 123, Char.ofNat 125,
   'I', 'J', 'K', 'L', 'M', 'N', 'O', 'P', 'Q', 'R', 'S', 'T', 'U', 'V',
   'W', 'X', 'Y', 'Z',
   '&', '+', '-', '.', ';', '<', '=', '>', '?', '!', '^', '_', '|', '~',
   'i', 'j', 'k', 'l', 'm', 'n', 'o', 'p', 'q', 'r', 's', 't', 'u', 'v',
   'w', 'x', 'y', 'z',
   'A', 'B', 'C', 'D', 'E', 'F', 'G', 'H',
   Char.ofNat 96, '#', Char.ofNat 34, Char.ofNat 92, ' ']

/-- The checksum output charset (`kChecksumCharset`, same as bech32). -/
def kChecksumCharset : List Char :=
  ['q', 'p', 'z', 'r', 'y', '9', 'x', '8', 'g', 'f', '2', 't', 'v', 'd',
   'w', '0', 's', '3', 'j', 'n', '5', '4', 'k', 'h', 'c', 'e', '6', 'm',
   'u', 'a', '7', 'l']

/-- `poly_mod` of `GenerateChecksum`.  `c` is a C++ `uint64_t`; every value
reached stays far below `2^64`, so plain `Nat` bit operations are exact. -/
def polyMod (c : Nat) (val : Nat) : Nat :=
  let c0 : Nat := c >>> 35
  let c1 : Nat := ((c &&& 0x7ffffffff) <<< 5) ^^^ val
  let c2 : Nat := if c0 &&& 1 ≠ 0 then c1 ^^^ 0xf5dee51989 else c1
  let c3 : Nat := if c0 &&& 2 ≠ 0 then c2 ^^^ 0xa9fdca3312 else c2
  let c4 : Nat := if c0 &&& 4 ≠ 0 then c3 ^^^ 0x1bab10e32d else c3
  let c5 : Nat := if c0 &&& 8 ≠ 0 then c4 ^^^ 0x3706b1677a else c4
  if c0 &&& 16 ≠ 0 then c5 ^^^ 0x644d626ffd else c5

/-- The per-character loop of `GenerateChecksum`: state is
`(c, cls, clscount)`; returns `none` as soon as a character is not in
`kInputCharset` (the C++ code returns the empty string then). -/
def genChecksumLoop : List Char → Nat → Nat → Nat → Option (Nat × Nat × Nat)
  | [], c, cls, clscount => some (c, cls, clscount)
  | ch :: rest, c, cls, clscount =>
    match kInputCharset.indexOf? ch with
    | none => none
    | some pos =>
      let c' := polyMod c (pos &&& 31)
      let cls' := cls * 3 + (pos >>> 5)
      if clscount + 1 == 3 then
        genChecksumLoop rest (polyMod c' cls') 0 0
      else
        genChecksumLoop rest c' cls' (clscount + 1)

/-- `DescriptorNode::GenerateChecksum`.  Returns `[]` when the input holds
a character outside `kInputCharset`. -/
def generateChecksum (descriptor : List Char) : List Char :=
  match genChecksumLoop descriptor 1 0 0 with
  | none => []
  | some (c, cls, clscount) =>
    let c := if clscount > 0 then polyMod c cls else c
    let c := polyMod (polyMod (polyMod (polyMod c 0) 0) 0) 0
    let c := polyMod (polyMod (polyMod (polyMod c 0) 0) 0) 0
    let c := c ^^^ 1
    (List.range 8).map fun j => kChecksumCharset.getD ((c >>> (5 * (7 - j))) &&& 31) ' '

/-- `DescriptorNode::CheckChecksum`: `checksum` is the node's stored
checksum field, `descriptor` the part of the input before `#`. -/
def checkChecksum (checksum : List Char) (descriptor : List Char) :
    Except DErr Unit :=
  if checksum.length ≠ 8 then .error .checksumLength
  else
    let computed := generateChecksum descriptor
    if computed.isEmpty then .error .invalidPayloadChar
    else if checksum ≠ computed then .error .checksumUnmatch
    else .ok ()

-- ---------------------------------------------------------------------------
-- Generic string helpers (std::string / StringUtil operations)
-- ---------------------------------------------------------------------------

/-- Character 39, the apostrophe (hardened-path marker). -/
def cApos : Char := Char.ofNat 39

/-- Character 123, the opening brace of a taproot tree expression. -/
def cLBrace : Char := Char.ofNat 123

/-- Character 125, the closing brace of a taproot tree expression. -/
def cRBrace : Char := Char.ofNat 125

/-- `StringUtil::Split`: split on a separator character; always returns at
least one (possibly empty) piece. -/
def splitStr (s : List Char) (sep : Char) : List (List Char) :=
  match s with
  | [] => [[]]
  | c :: rest =>
    let r := splitStr rest sep
    if c = sep then [] :: r
    else match r with
         | [] => [[c]]
         | h :: t => (c :: h) :: t

/-- `std::string::find` for a single character: index of first occurrence. -/
def findChar (s : List Char) (c : Char) : Option Nat :=
  s.indexOf? c

/-- Whether `pat` occurs as a substring of `s` (`find != npos`). -/
def containsSub (s pat : List Char) : Bool :=
  match s with
  | [] => pat.isEmpty
  | _ :: rest => pat.isPrefixOf s || containsSub rest pat

/-- `std::string::find` for a substring: index of first occurrence. -/
def findSub (s pat : List Char) : Option Nat :=
  match s with
  | [] => if pat.isEmpty then some 0 else none
  | _ :: rest =>
    if pat.isPrefixOf s then some 0
    else (findSub rest pat).map (· + 1)

/-- One `replace` step of `DescriptorNode::GetTapBranch`'s rewrite loop:
replace the first occurrence of `pat` (at the index `find` returns). -/
def replaceFirst (s pat target : List Char) : List Char :=
  match findSub s pat with
  | none => s
  | some i => s.take i ++ target ++ s.drop (i + pat.length)

/-- The rewrite loop of `GetTapBranch`: repeatedly find-and-replace from the
start of the string until `pat` no longer occurs (fuelled; the fuel is
consumed only when an occurrence was found, and each replacement removes
one occurrence assuming `target` does not contain `pat`). -/
def replaceLoop (fuel : Nat) (s pat target : List Char) : List Char :=
  match fuel with
  | 0 => s
  | fuel + 1 =>
    match findSub s pat with
    | none => s
    | some _ => replaceLoop fuel (replaceFirst s pat target) pat target

/-- Lexicographic (char-code) strict comparison; the `std::string` `<`
used by the ordered `std::map` of tapleaf nodes. -/
def strLt : List Char → List Char → Bool
  | [], [] => false
  | [], _ :: _ => true
  | _ :: _, [] => false
  | a :: as, b :: bs =>
    if a.toNat < b.toNat then true
    else if b.toNat < a.toNat then false
    else strLt as bs

/-- Numeric value of a digit run (used by `atoi`/`stoul` models). -/
def digitsVal (s : List Char) : Nat :=
  s.foldl (fun acc c => acc * 10 + (c.toNat - 48)) 0

/-- `atoi`: optional leading spaces and sign, then leading digits (0 when
none). -/
def atoiM (s : List Char) : Int :=
  let s := s.dropWhile (fun c => c = ' ')
  match s with
  | '-' :: rest => -(Int.ofNat (digitsVal (rest.takeWhile Char.isDigit)))
  | '+' :: rest => Int.ofNat (digitsVal (rest.takeWhile Char.isDigit))
  | _ => Int.ofNat (digitsVal (s.takeWhile Char.isDigit))

/-- Truncation of an `int` into the `uint32_t` field `number_`. -/
def toUint32 (i : Int) : Nat := (i % ((2 : Int) ^ 32)).toNat

-- ---------------------------------------------------------------------------
-- Modelled external byte/key primitives
-- ---------------------------------------------------------------------------

/-- Modelled from the spec: hex decoding of the external `ByteData`
constructor.  Fails (C++ message "hex to byte convert error.") on an odd
length or a non-hex character. -/
def hexDigit? (c : Char) : Option Nat :=
  if '0' ≤ c ∧ c ≤ '9' then some (c.toNat - 48)
  else if 'a' ≤ c ∧ c ≤ 'f' then some (c.toNat - 87)
  else if 'A' ≤ c ∧ c ≤ 'F' then some (c.toNat - 55)
  else none

/-- Modelled from the spec: hex string → byte list (pairs of hex digits). -/
def hexDecode : List Char → Option (List Nat)
  | [] => some []
  | [_] => none
  | c1 :: c2 :: rest => do
    let h ← hexDigit? c1
    let l ← hexDigit? c2
    let r ← hexDecode rest
    pure ((h * 16 + l) :: r)

/-- Modelled from the spec: lower-case hex rendering of one value modulo
256 (the canonical `GetHex` form). -/
def byteHex (n : Nat) : List Char :=
  let lo := n % 256
  let digit := fun d => if d < 10 then Char.ofNat (48 + d) else Char.ofNat (87 + d)
  [digit (lo / 16), digit (lo % 16)]

/-- Modelled from the spec: lower-case hex encoding of a byte list. -/
def hexEncode (bs : List Nat) : List Char :=
  (bs.map byteHex).flatten

/-- Modelled from the spec: BIP32 serialization format classes of an
extended key (`Bip32FormatType`). -/
inductive Bip32Format where
  | normal | bip49 | bip84
deriving Repr, DecidableEq

/-- Modelled from the spec: an extended BIP32 key.  Derivation itself is an
external collaborator, so the key is kept symbolic: the undecorated
serialized base text plus the accumulated child-path segments. -/
structure ExtKeyM where
  isPriv : Bool
  base : List Char
  path : List (List Char)
deriving Repr, DecidableEq

/-- Modelled from the spec: serialization prefixes distinguishing Normal,
BIP49 and BIP84 extended keys (`GetFormatType`). -/
def extPrefixTable : List (List Char × Bool × Bip32Format) :=
  [("xpub".toList, false, .normal), ("xprv".toList, true, .normal),
   ("tpub".toList, false, .normal), ("tprv".toList, true, .normal),
   ("ypub".toList, false, .bip49), ("yprv".toList, true, .bip49),
   ("upub".toList, false, .bip49), ("uprv".toList, true, .bip49),
   ("zpub".toList, false, .bip84), ("zprv".toList, true, .bip84),
   ("vpub".toList, false, .bip84), ("vprv".toList, true, .bip84)]

/-- Modelled from the spec: the `ExtPubkey`/`ExtPrivkey` constructor from
serialized text.  Succeeds when the four-character prefix matches the
wanted visibility and some minimal body follows. -/
def extKeyFromText (wantPriv : Bool) (s : List Char) : Except DErr ExtKeyM :=
  match (extPrefixTable.find? fun e => e.1 = s.take 4) with
  | some (_, priv, _) =>
    if priv = wantPriv ∧ 5 ≤ s.length then .ok ⟨wantPriv, s, []⟩
    else .error .invalidExtkeyText
  | none => .error .invalidExtkeyText

/-- Modelled from the spec: format class of an extended key, read off its
serialization prefix. -/
def ExtKeyM.format (k : ExtKeyM) : Bip32Format :=
  match (extPrefixTable.find? fun e => e.1 = k.base.take 4) with
  | some (_, _, f) => f
  | none => .normal

/-- Modelled from the spec: validity of one BIP32 path segment — digits
with an optional hardened marker (`'` or `h`), index below `2^31`. -/
def pathSegParse (seg : List Char) : Option (Nat × Bool) :=
  let hardened := seg.getLast? = some cApos ∨ seg.getLast? = some 'h'
  let digits := if hardened then seg.dropLast else seg
  if digits ≠ [] ∧ digits.all Char.isDigit ∧ digitsVal digits < 2 ^ 31 then
    some (digitsVal digits, hardened)
  else none

/-- Modelled from the spec: `DerivePubkey`/`DerivePrivkey` on a slash
separated path text.  Hardened segments require a private key; any bad
segment fails the derivation. -/
def extDerive (k : ExtKeyM) (pathText : List Char) : Except DErr ExtKeyM :=
  let segs := splitStr pathText '/'
  if segs.all fun seg =>
      match pathSegParse seg with
      | some (_, hardened) => !hardened || k.isPriv
      | none => false
  then .ok ⟨k.isPriv, k.base, k.path ++ segs⟩
  else .error .extkeyDeriveFail

/-- Modelled from the spec: `ExtPrivkey::GetExtPubkey` — the public
counterpart of a private extended key (same underlying key material). -/
def ExtKeyM.toPub (k : ExtKeyM) : ExtKeyM := ⟨false, k.base, k.path⟩

/-- Modelled from the spec: an elliptic-curve public key — either literal
bytes (from a hex or WIF expression) or the symbolic derivation result of
an extended key (always compressed). -/
inductive PubkeyM where
  | raw (bytes : List Nat)
  | derived (base : List Char) (path : List (List Char))
deriving Repr, DecidableEq

/-- Modelled from the spec: `Pubkey::IsValid` on raw bytes — a 33-byte key
with prefix 2/3 or a 65-byte key with prefix 4. -/
def pubkeyBytesValid (b : List Nat) : Bool :=
  (b.length = 33 ∧ (b.headD 0 = 2 ∨ b.headD 0 = 3)) ∨
    (b.length = 65 ∧ b.headD 0 = 4)

/-- Modelled from the spec: `Pubkey::IsValid`. -/
def PubkeyM.isValid : PubkeyM → Bool
  | .raw b => pubkeyBytesValid b
  | .derived _ _ => true

/-- Modelled from the spec: `Pubkey::IsCompress` — 33-byte form; a BIP32
derived pubkey is always compressed. -/
def PubkeyM.isCompress : PubkeyM → Bool
  | .raw b => b.length = 33
  | .derived _ _ => true

/-- Modelled from the spec: the byte image of a pubkey used for ordering
and hashing; symbolic derived keys are tagged injectively with values
above 255 so they never collide with literal byte keys. -/
def PubkeyM.bytes : PubkeyM → List Nat
  | .raw b => b
  | .derived base path =>
    2 :: 300 :: (base.map Char.toNat ++ [301] ++
      (path.map fun seg => seg.map Char.toNat ++ [302]).flatten)

/-- Modelled from the spec: `GetPubkey` of an extended key. -/
def ExtKeyM.pubkey (k : ExtKeyM) : PubkeyM := .derived k.base k.path

/-- Modelled from the spec: lexicographic strict byte comparison. -/
def lexLtBytes : List Nat → List Nat → Bool
  | [], [] => false
  | [], _ :: _ => true
  | _ :: _, [] => false
  | a :: as, b :: bs =>
    if a < b then true else if b < a then false else lexLtBytes as bs

/-- Modelled from the spec: `Pubkey::IsLarge`, the comparator handed to
`std::sort` for `sortedmulti` — BIP67 sorting, lexicographically
descending by compressed-pubkey bytes, so `IsLarge a b` orders `a` before
`b` exactly when `a`'s bytes are lexicographically greater. -/
def pubkeyIsLarge (a b : PubkeyM) : Bool := lexLtBytes b.bytes a.bytes

/-- Modelled from the spec: a BIP340 x-only public key, either literal
32-byte data or the x-only image of a full pubkey (`FromPubkey`). -/
inductive SchnorrM where
  | raw (bytes : List Nat)
  | ofPub (p : PubkeyM)
deriving Repr, DecidableEq

/-- Modelled from the spec: `SchnorrPubkey::FromPubkey` — drop the parity
prefix of a literal key; symbolic for derived keys. -/
def schnorrFromPubkey : PubkeyM → SchnorrM
  | .raw b => .raw (b.drop 1 |>.take 32)
  | p => .ofPub p

/-- Modelled from the spec: `SchnorrPubkey::CreatePubkey` — re-prefix with
an even-parity byte. -/
def SchnorrM.createPubkey : SchnorrM → PubkeyM
  | .raw b => .raw (2 :: b)
  | .ofPub p => p

/-- Modelled from the spec: `SchnorrPubkey::GetHex` (canonical x-only hex;
for symbolic keys the tagged byte image is rendered modulo 256). -/
def SchnorrM.hex : SchnorrM → List Char
  | .raw b => hexEncode b
  | .ofPub p => hexEncode p.bytes

/-- Modelled from the spec: `Privkey::HasWif` — classify a candidate WIF
text by its version character and report the compression flag. -/
def wifInfo (s : List Char) : Option Bool :=
  if s.length < 2 then none
  else match s.headD ' ' with
       | '5' => some false
       | '9' => some false
       | 'K' => some true
       | 'L' => some true
       | 'c' => some true
       | _ => none

/-- Modelled from the spec: `Privkey::GeneratePubkey` for a WIF-decoded
private key — a well-formed compressed or uncompressed byte key derived
injectively from the WIF text. -/
def wifPubkey (s : List Char) (compressed : Bool) : PubkeyM :=
  let body := s.map Char.toNat
  let pad := fun n => (body ++ List.replicate n 0).take n
  if compressed then .raw (2 :: pad 32) else .raw (4 :: pad 64)

-- ---------------------------------------------------------------------------
-- Modelled script and taproot primitives
-- ---------------------------------------------------------------------------

/-- Modelled from the spec: a `TapBranch` — kept symbolic as the final
rewritten tree text handed to `TapBranch::FromString`, plus the optional
leaf script installed by `ChangeTapLeaf`.  A default-constructed branch
has empty text. -/
structure TapBranchM where
  text : List Char
  changedLeaf : Option (List Nat)
deriving Repr, DecidableEq

/-- Modelled from the spec: the default-constructed (empty) `TapBranch`. -/
def TapBranchM.empty : TapBranchM := ⟨[], none⟩

/-- Modelled from the spec: `TapBranch::FromString`. -/
def tapBranchFromString (s : List Char) : Except DErr TapBranchM :=
  .ok ⟨s, none⟩

/-- Modelled from the spec: `TapBranch::HasTapLeaf` — true when a `tl(`
leaf occurs in the tree text or a leaf was installed. -/
def TapBranchM.hasTapLeaf (b : TapBranchM) : Bool :=
  containsSub b.text "tl(".toList || b.changedLeaf.isSome

/-- Modelled from the spec: `TapBranch::ChangeTapLeaf`. -/
def TapBranchM.changeTapLeaf (b : TapBranchM) (scriptBytes : List Nat) :
    TapBranchM :=
  ⟨b.text, some scriptBytes⟩

/-- Modelled from the spec: one element of a `Script`.  Hash pushes are
kept symbolic over the byte image of their preimage (collision-free
idealization of HASH160/SHA256 and of the taproot output-key tweak). -/
inductive SElem where
  | num (n : Nat)
  | pushPub (p : PubkeyM)
  | pushXonly (x : SchnorrM)
  | opCheckSig | opCheckMultiSig | opDup | opHash160 | opEqualVerify
  | opEqual | op0
  | hash160Pub (p : PubkeyM)
  | hash160Script (b : List Nat)
  | sha256Script (b : List Nat)
  | taprootProg (internal : SchnorrM) (branch : TapBranchM)
  | addrProg (addr : List Char)
  | rawScript (bytes : List Nat)
deriving Repr, DecidableEq

/-- A `Script` is its element list. -/
abbrev ScriptM := List SElem

/-- Modelled from the spec: serialized size in bytes of one element
(compressed-key push 34, uncompressed 66, hash pushes 21/33, one byte per
opcode or small number up to 16). -/
def selemSize : SElem → Nat
  | .num n => if n ≤ 16 then 1 else 2
  | .pushPub p => if p.isCompress then 34 else 66
  | .pushXonly _ => 33
  | .hash160Pub _ => 21
  | .hash160Script _ => 21
  | .sha256Script _ => 33
  | .taprootProg _ _ => 33
  | .addrProg a => a.length
  | .rawScript b => b.length
  | _ => 1

/-- Modelled from the spec: `Script::GetData().GetDataSize()`. -/
def scriptSize (s : ScriptM) : Nat :=
  (List.map selemSize s).sum

/-- Modelled from the spec: the byte image of one element (`GetData`);
symbolic pushes are tagged with values above 255, injectively. -/
def selemBytes : SElem → List Nat
  | .num n => [80 + n]
  | .pushPub p => 33 :: p.bytes
  | .pushXonly (.raw b) => 32 :: b
  | .pushXonly (.ofPub p) => 32 :: 310 :: p.bytes
  | .opCheckSig => [172]
  | .opCheckMultiSig => [174]
  | .opDup => [118]
  | .opHash160 => [169]
  | .opEqualVerify => [136]
  | .opEqual => [135]
  | .op0 => [0]
  | .hash160Pub p => 311 :: p.bytes
  | .hash160Script b => 312 :: List.map (fun x => 400 + x) b
  | .sha256Script b => 313 :: List.map (fun x => 400 + x) b
  | .taprootProg i b =>
    314 :: (match i with | .raw x => x | .ofPub p => 310 :: p.bytes) ++
      b.text.map Char.toNat
  | .addrProg a => 315 :: a.map Char.toNat
  | .rawScript b => b

/-- Modelled from the spec: `Script::GetData()` of a whole script. -/
def scriptBytes (s : ScriptM) : List Nat :=
  (List.map selemBytes s).flatten

/-- Modelled from the spec: `Script::GetHex()`. -/
def scriptHex (s : ScriptM) : List Char := hexEncode (scriptBytes s)

/-- Modelled from the spec:
`ScriptUtil::CreateMultisigRedeemScript(req, pubkeys, has_witness)` —
`OP_req <keys> OP_n OP_CHECKMULTISIG`, with the multisig bounds the
external builder enforces (at most 20 keys in witness scope, 16
otherwise). -/
def createMultisigRedeemScript (reqnum : Nat) (pubkeys : List PubkeyM)
    (hasWitness : Bool) : Except DErr ScriptM :=
  if reqnum = 0 ∨ pubkeys.length < reqnum ∨ pubkeys.length = 0 ∨
      pubkeys.length > (if hasWitness then 20 else 16) then
    .error .invalidPubkeyData
  else
    .ok ([SElem.num reqnum] ++ pubkeys.map SElem.pushPub ++
      [SElem.num pubkeys.length, SElem.opCheckMultiSig])

/-- Modelled from the spec: `ScriptUtil::CreateP2wpkhLockingScript`. -/
def createP2wpkhLockingScript (p : PubkeyM) : ScriptM :=
  [.op0, .hash160Pub p]

/-- Modelled from the spec: `ScriptUtil::CreateP2pkhLockingScript`. -/
def createP2pkhLockingScript (p : PubkeyM) : ScriptM :=
  [.opDup, .opHash160, .hash160Pub p, .opEqualVerify, .opCheckSig]

/-- Modelled from the spec: `ScriptUtil::CreateP2shLockingScript`. -/
def createP2shLockingScript (s : ScriptM) : ScriptM :=
  [.opHash160, .hash160Script (scriptBytes s), .opEqual]

/-- Modelled from the spec: `ScriptUtil::CreateP2wshLockingScript`. -/
def createP2wshLockingScript (s : ScriptM) : ScriptM :=
  [.op0, .sha256Script (scriptBytes s)]

/-- Modelled from the spec:
`TaprootUtil::CreateTapScriptControl(internal, branch_or_tree, …)` — the
witness-v1 locking script for the tweaked output key. -/
def createTapScriptControl (internal : SchnorrM) (branch : TapBranchM) :
    ScriptM :=
  [.num 1, .taprootProg internal branch]

/-- Modelled from the spec: the external `Address` text parser (base58 /
bech32 codecs).  Kept symbolic: any nonempty alphanumeric text is an
address; its locking script is the symbolic program of that text. -/
def addressParse (s : List Char) : Except DErr (List Char) :=
  if s ≠ [] ∧ s.all Char.isAlphanum then .ok s else .error .invalidAddress

/-- Modelled from the spec: the external miniscript compiler entry point
(`wally_descriptor_parse_miniscript`).  Deterministic; we model a tiny
fixed accepted language — expressions beginning `older(` — compiling to a
byte image whose length does not depend on the child number. -/
def miniscriptCompile (text : List Char) (childNum : Nat) (_isTap : Bool) :
    Option (List Nat) :=
  if "older(".toList.isPrefixOf text then
    some (text.map Char.toNat ++ [childNum % 256])
  else none

-- ---------------------------------------------------------------------------
-- Descriptor node data model (cfdcore_descriptor.h types)
-- ---------------------------------------------------------------------------

/-- `DescriptorNodeType`. -/
inductive DNodeType where
  | null | script | key | number
deriving Repr, DecidableEq

/-- `DescriptorScriptType`. -/
inductive DScriptType where
  | null | sh | wsh | pk | pkh | wpkh | combo | multi | sortedMulti
  | addr | raw | taproot | miniscript
deriving Repr, DecidableEq

/-- `DescriptorKeyType`. -/
inductive DKeyType where
  | null | public | bip32 | bip32Priv | schnorr
deriving Repr, DecidableEq

/-- The canonical key text stored in `key_info_`: plain text (hex form of
a literal key) or the parsed denotation of a canonical extended-key
serialization (the external `ToString`/re-parse round trip of an extended
key is the identity, so the denotation stands for the text). -/
inductive KeyInfoM where
  | text (s : List Char)
  | ext (k : ExtKeyM)
deriving Repr, DecidableEq

/-- The scalar fields of `DescriptorNode`.  `addr_prefixes_` and
`network_type_` are fixed per parse (Bitcoin mainnet defaults) and carry
no claim-relevant information, so they are not modelled. -/
structure DNodeData where
  name : List Char := []
  value : List Char := []
  keyInfo : KeyInfoM := .text []
  isUncompressedKey : Bool := false
  baseExtkey : Option ExtKeyM := none
  tweakSum : List (List Char) := []
  number : Nat := 0
  checksum : List Char := []
  depth : Nat := 0
  needArgNum : Nat := 0
  nodeType : DNodeType := .null
  scriptType : DScriptType := .null
  keyType : DKeyType := .null
  parentKind : List Char := []
deriving Repr, DecidableEq

/-- `DescriptorNode`: scalar data plus the ordered child list and the
ordered tapleaf map (`tree_node_`, a `std::map` keyed by leaf text). -/
inductive DNode where
  | mk (data : DNodeData) (childNode : List DNode)
       (treeNode : List (List Char × DNode))

/-- Scalar data of a node. -/
def DNode.data : DNode → DNodeData
  | .mk d _ _ => d

/-- Child list of a node. -/
def DNode.childNode : DNode → List DNode
  | .mk _ c _ => c

/-- Tapleaf map of a node. -/
def DNode.treeNode : DNode → List (List Char × DNode)
  | .mk _ _ t => t

/-- A fresh node (the `DescriptorNode` constructor). -/
def dnodeNew (d : DNodeData) : DNode := .mk d [] []

-- ---------------------------------------------------------------------------
-- Structural parser (DescriptorNode::AnalyzeChild)
-- ---------------------------------------------------------------------------

/-- `descriptor.substr(offset, idx - offset)` with C++ `size_t`
semantics: when `offset > idx` the count wraps huge and `substr` yields
the rest of the string. -/
def acSub (s : List Char) (offset idx : Nat) : List Char :=
  if offset ≤ idx then (s.drop offset).take (idx - offset)
  else s.drop offset

/-- Scan state of the `AnalyzeChild` character loop. -/
structure AcState where
  name : List Char
  value : List Char
  checksum : List Char
  descMain : List Char
  offset : Nat
  depthWork : Nat
  isTerminate : Bool
  existChild : Bool
  children : List DNode
  parentKind : List Char

/-- `uint32_t` increment / decrement. -/
def incU32 (x : Nat) : Nat := (x + 1) % 2 ^ 32

/-- `uint32_t` decrement (wraps at zero, as the C++ `--depth_work`). -/
def decU32 (x : Nat) : Nat := (x + (2 ^ 32 - 1)) % 2 ^ 32

/-- The character loop of `AnalyzeChild`.  `recur` is the nested
`AnalyzeChild` call performed on a parenthesized child expression (the
fuelled parse one level down), `descriptor` the whole input, `idx` the
current character index. -/
def acLoop (recur : DNode → List Char → Nat → Except DErr DNode)
    (descriptor : List Char) (depth : Nat) :
    List Char → Nat → AcState → Except DErr AcState
  | [], _, st => .ok st
  | ch :: rest, idx, st =>
    if ch = '#' then
      if st.isTerminate then
        let checksum := descriptor.drop (idx + 1)
        let descMain := descriptor.take idx
        if containsSub checksum ['#'] then .error .multipleSharp
        else acLoop recur descriptor depth rest (idx + 1)
          { st with offset := idx, checksum := checksum, descMain := descMain }
      else .error .illegalChecksumData
    else if ch = ',' then
      if st.existChild then acLoop recur descriptor depth rest (idx + 1) st
      else if st.name = "multi".toList ∨ st.name = "sortedmulti".toList then
        let v := acSub descriptor st.offset idx
        let child :=
          if st.children.isEmpty then
            dnodeNew { value := v, number := toUint32 (atoiM v),
                       nodeType := .number, depth := depth + 1,
                       parentKind := st.parentKind }
          else
            dnodeNew { value := v, nodeType := .key, depth := depth + 1,
                       parentKind := st.parentKind }
        acLoop recur descriptor depth rest (idx + 1)
          { st with children := st.children ++ [child], offset := idx + 1 }
      else if st.name = "tr".toList then
        if st.children.isEmpty then
          let v := acSub descriptor st.offset idx
          let child := dnodeNew { value := v, nodeType := .key,
                                  depth := depth + 1,
                                  parentKind := st.parentKind }
          acLoop recur descriptor depth rest (idx + 1)
            { st with children := [child], offset := idx + 1 }
        else acLoop recur descriptor depth rest (idx + 1) st
      else acLoop recur descriptor depth rest (idx + 1) st
    else if ch = ' ' then
      acLoop recur descriptor depth rest (idx + 1)
        { st with offset := st.offset + 1 }
    else if ch = '(' then
      if st.depthWork = depth then
        acLoop recur descriptor depth rest (idx + 1)
          { st with
            name := acSub descriptor st.offset idx,
            offset := idx + 1, depthWork := incU32 st.depthWork }
      else
        acLoop recur descriptor depth rest (idx + 1)
          { st with existChild := true, depthWork := incU32 st.depthWork }
    else if ch = ')' then
      let dw := decU32 st.depthWork
      if dw = depth then
        let v := acSub descriptor st.offset idx
        if st.name = "addr".toList ∨ st.name = "raw".toList then
          acLoop recur descriptor depth rest (idx + 1)
            { st with
              value := v, isTerminate := true, offset := idx + 1,
              depthWork := dw }
        else if st.name = "tr".toList then
          let child := dnodeNew { value := v, nodeType := .script,
                                  depth := depth + 1,
                                  parentKind := st.parentKind }
          acLoop recur descriptor depth rest (idx + 1)
            { st with
              value := v, isTerminate := true, offset := idx + 1,
              depthWork := dw, existChild := false,
              children := st.children ++ [child] }
        else if st.existChild then do
          let child ← recur (dnodeNew { nodeType := .script }) v (depth + 1)
          let child := DNode.mk { child.data with parentKind := st.parentKind }
                         child.childNode child.treeNode
          acLoop recur descriptor depth rest (idx + 1)
            { st with
              value := v, isTerminate := true, offset := idx + 1,
              depthWork := dw, existChild := false,
              children := st.children ++ [child] }
        else
          let child := dnodeNew { value := v, nodeType := .key,
                                  depth := depth + 1,
                                  parentKind := st.parentKind }
          acLoop recur descriptor depth rest (idx + 1)
            { st with
              value := v, isTerminate := true, offset := idx + 1,
              depthWork := dw, children := st.children ++ [child] }
      else
        acLoop recur descriptor depth rest (idx + 1) { st with depthWork := dw }
    else acLoop recur descriptor depth rest (idx + 1) st

/-- `DescriptorNode::AnalyzeChild`, fuelled on parenthesis-nesting depth
(any fuel of at least the input length suffices). -/
def analyzeChild : Nat → DNode → List Char → Nat → Except DErr DNode
  | 0, _, _, _ => .error .outOfFuel
  | fuel + 1, self, descriptor, depth => do
    let st0 : AcState :=
      { name := self.data.name, value := self.data.value,
        checksum := self.data.checksum, descMain := [], offset := 0,
        depthWork := depth, isTerminate := false, existChild := false,
        children := self.childNode, parentKind := self.data.parentKind }
    let st ← acLoop (analyzeChild fuel) descriptor depth descriptor 0 st0
    if st.name = [] ∨ st.name = "addr".toList ∨ st.name = "raw".toList then
      pure ()
    else if st.children.isEmpty then throw .childNodeEmpty
    else pure ()
    if st.descMain ≠ [] then checkChecksum st.checksum st.descMain
    else pure ()
    return DNode.mk
      { self.data with
        name := st.name, value := st.value,
        checksum := st.checksum, depth := depth }
      st.children self.treeNode

-- ---------------------------------------------------------------------------
-- Key expression parser (DescriptorNode::AnalyzeKey)
-- ---------------------------------------------------------------------------

/-- The path-segment loop of `AnalyzeKey`: walks the slash-separated
segments after the base key (starting at index 1), accumulating the fixed
derivation path, and stops at a wildcard segment.  Returns the index at
which it stopped, the accumulated path text and the hardened-wildcard
flag. -/
def keyPathScan : List (List Char) → Nat → List Char → Nat × List Char × Bool
  | [], index, path => (index, path, false)
  | seg :: rest, index, path =>
    if seg = ['*'] then (index, path, false)
    else if seg = ['*', cApos] ∨ seg = ['*', 'h'] then (index, path, true)
    else
      let path' := if index ≠ 1 then path ++ ['/'] ++ seg else path ++ seg
      keyPathScan rest (index + 1) path'

/-- Update only the scalar data of a node. -/
def DNode.withData (n : DNode) (d : DNodeData) : DNode :=
  .mk d n.childNode n.treeNode

/-- `DescriptorNode::AnalyzeKey`. -/
def analyzeKey (node : DNode) : Except DErr DNode := do
  let d := node.data
  let keyInfo0 :=
    if d.value.headD ' ' = '[' then
      match findChar d.value ']' with
      | some pos => d.value.drop (pos + 1)
      | none => d.value
    else d.value
  let hdkeyTop := if 4 < keyInfo0.length then (keyInfo0.drop 1).take 3 else []
  if hdkeyTop = "pub".toList ∨ hdkeyTop = "prv".toList then do
    let isPriv := hdkeyTop = "prv".toList
    let keyType := if isPriv then DKeyType.bip32Priv else DKeyType.bip32
    let list := splitStr keyInfo0 '/'
    let key := list.headD []
    let needArg :=
      if 1 < list.length ∧ containsSub keyInfo0 ['*'] then 1 else d.needArgNum
    let scan :=
      if 1 < list.length then keyPathScan (list.drop 1) 1 []
      else (list.length, [], false)
    let index := scan.1
    let path := scan.2.1
    let hardened := scan.2.2
    if 1 < list.length ∧ index + 1 < list.length then
      throw .extkeyPathWildcard
    else pure ()
    if keyType = DKeyType.bip32Priv then do
      let xpriv0 ← extKeyFromText true key
      let xpriv ← if path ≠ [] then extDerive xpriv0 path else pure xpriv0
      return node.withData
        { d with
          keyType := keyType, keyInfo := .ext xpriv,
          baseExtkey := some xpriv0, tweakSum := xpriv.path,
          needArgNum := needArg }
    else if hardened then throw .hardenedPubkey
    else do
      let xpub0 ← extKeyFromText false key
      let xpub ← if path ≠ [] then extDerive xpub0 path else pure xpub0
      return node.withData
        { d with
          keyType := keyType, keyInfo := .ext xpub,
          baseExtkey := some xpub0, tweakSum := xpub.path,
          needArgNum := needArg }
  else
    let wifStep : Except DErr DNode := do
      match wifInfo keyInfo0 with
      | some compressed =>
        let pubkey := wifPubkey keyInfo0 compressed
        let hx := match pubkey with | .raw b => hexEncode b | _ => []
        return node.withData
          { d with
            keyType := .public, keyInfo := .text hx,
            isUncompressedKey := !pubkey.isCompress }
      | none => throw .privkeyInvalid
    match hexDecode keyInfo0 with
    | some bytes =>
      if pubkeyBytesValid bytes then
        if d.parentKind = "tr".toList then throw .taprootXonlyOnly
        else
          return node.withData
            { d with
              keyType := .public, keyInfo := .text (hexEncode bytes),
              isUncompressedKey := !(decide (bytes.length = 33)) }
      else if d.parentKind = "tr".toList ∧ bytes.length = 32 then
        return node.withData
          { d with
            keyType := .schnorr, keyInfo := .text (hexEncode bytes),
            isUncompressedKey := false }
      else wifStep
    | none => wifStep

-- ---------------------------------------------------------------------------
-- Pure tree functions (GetNeedArgumentNum, ToString, ExistUncompressedKey)
-- ---------------------------------------------------------------------------

mutual
/-- `DescriptorNode::GetNeedArgumentNum`: the node's own wildcard count
plus the children's. -/
def getNeedArgumentNum : DNode → Nat
  | .mk d kids _ => d.needArgNum + needArgList kids
/-- Sum of `GetNeedArgumentNum` over a child list. -/
def needArgList : List DNode → Nat
  | [] => 0
  | c :: rest => getNeedArgumentNum c + needArgList rest
end

mutual
/-- `DescriptorNode::ExistUncompressedKey`. -/
def existUncompressedKey : DNode → Bool
  | .mk d kids _ => d.isUncompressedKey || existUncompressedList kids
/-- `ExistUncompressedKey` over a child list. -/
def existUncompressedList : List DNode → Bool
  | [] => false
  | c :: rest => existUncompressedKey c || existUncompressedList rest
end

mutual
/-- `DescriptorNode::ToString`: leaf nodes render as `name(value)` (or the
bare `value` when unnamed or miniscript), inner nodes re-render their
children; at depth 0 with `append_checksum` a freshly computed checksum
is appended when computable. -/
def nodeToString : DNode → Bool → List Char
  | .mk d kids _, appendChecksum =>
    let result :=
      if d.name = [] ∨ d.name = "miniscript".toList then d.value
      else if kids.isEmpty then d.name ++ ['('] ++ d.value ++ [')']
      else d.name ++ ['('] ++ nodeToStringList kids [] ++ [')']
    if d.depth = 0 ∧ appendChecksum then
      let checksum := generateChecksum result
      if checksum ≠ [] then result ++ ['#'] ++ checksum else result
    else result
/-- The child-joining fold of `ToString` (a comma before every child
whose accumulated prefix is nonempty). -/
def nodeToStringList : List DNode → List Char → List Char
  | [], acc => acc
  | c :: rest, acc =>
    let s := nodeToString c true
    let acc' := if acc.isEmpty then acc ++ s else acc ++ [','] ++ s
    nodeToStringList rest acc'
end

mutual
/-- Nesting depth of a node tree, through both the child list and the
tapleaf map; the standard fuel bound for the evaluator. -/
def nodeDepth : DNode → Nat
  | .mk _ kids tree => 1 + Nat.max (nodeDepthList kids) (nodeDepthTree tree)
/-- `nodeDepth` over a child list. -/
def nodeDepthList : List DNode → Nat
  | [] => 0
  | c :: rest => Nat.max (nodeDepth c) (nodeDepthList rest)
/-- `nodeDepth` over a tapleaf map. -/
def nodeDepthTree : List (List Char × DNode) → Nat
  | [] => 0
  | (_, c) :: rest => Nat.max (nodeDepth c) (nodeDepthTree rest)
end

-- ---------------------------------------------------------------------------
-- Evaluator value objects (DescriptorKeyReference / DescriptorScriptReference)
-- ---------------------------------------------------------------------------

/-- Evaluator argument vector: the C++ `std::vector<std::string>*`
(`none` models a null pointer). -/
abbrev ArgsM := Option (List (List Char))

/-- `DescriptorKeyReference`: resolved key material of one evaluation.
`key_data_` is not modelled separately: the external `KeyData` re-parse
of the original expression reproduces the same key (see
`getKeyReferences`). -/
structure DKeyRef where
  keyType : DKeyType
  pubkey : PubkeyM
  schnorrPubkey : SchnorrM
  extkey : Option ExtKeyM := none
  argument : List Char := []
deriving Repr, DecidableEq

/-- `DescriptorScriptReference`: one produced locking-script reference.
The `TaprootScriptTree` and `TapBranch` members are merged into one
optional branch field (they carry the same modelled data). -/
inductive DScriptRef where
  | mk (lockingScript : ScriptM) (scriptType : DScriptType)
       (keys : List DKeyRef) (isScript : Bool) (redeemScript : ScriptM)
       (child : Option DScriptRef) (reqNum : Nat)
       (address : Option (List Char)) (tapBranch : Option TapBranchM)

/-- Locking script of a reference. -/
def DScriptRef.lockingScript : DScriptRef → ScriptM
  | .mk ls _ _ _ _ _ _ _ _ => ls

/-- Script type of a reference. -/
def DScriptRef.scriptType : DScriptRef → DScriptType
  | .mk _ ty _ _ _ _ _ _ _ => ty

/-- Key list of a reference. -/
def DScriptRef.keys : DScriptRef → List DKeyRef
  | .mk _ _ ks _ _ _ _ _ _ => ks

/-- `HasChild`. -/
def DScriptRef.isScript : DScriptRef → Bool
  | .mk _ _ _ b _ _ _ _ _ => b

/-- `GetRedeemScript`. -/
def DScriptRef.redeemScript : DScriptRef → ScriptM
  | .mk _ _ _ _ rs _ _ _ _ => rs

/-- `GetChild`. -/
def DScriptRef.child : DScriptRef → Option DScriptRef
  | .mk _ _ _ _ _ c _ _ _ => c

/-- `GetReqNum`. -/
def DScriptRef.reqNum : DScriptRef → Nat
  | .mk _ _ _ _ _ _ r _ _ => r

/-- The `(script, type)` constructor — only `raw` and `miniscript`
references may omit key and script members. -/
def refRawType (ls : ScriptM) (ty : DScriptType) : Except DErr DScriptRef :=
  if ty = .raw ∨ ty = .miniscript then
    .ok (.mk ls ty [] false [] none 0 none none)
  else .error .refRequiresKey

/-- The `(script, type, child_script)` constructor (`sh`/`wsh` wrap and
the nested P2SH-P2WPKH of `combo`). -/
def refChild (ls : ScriptM) (ty : DScriptType) (childRef : DScriptRef) :
    DScriptRef :=
  .mk ls ty [] true childRef.lockingScript (some childRef) 0 none none

/-- The `(script, type, key_list, req_sig_num)` constructor. -/
def refKeys (ls : ScriptM) (ty : DScriptType) (keys : List DKeyRef)
    (reqNum : Nat) : DScriptRef :=
  .mk ls ty keys false [] none reqNum none none

/-- The `(address)` constructor for `addr` descriptors. -/
def refAddr (a : List Char) : DScriptRef :=
  .mk [.addrProg a] .addr [] false [] none 0 (some a) none

/-- The taproot constructors (`TapBranch` / `TaprootScriptTree`). -/
def refTap (ls : ScriptM) (keys : List DKeyRef) (branch : TapBranchM) :
    DScriptRef :=
  .mk ls .taproot keys false [] none 0 none (some branch)

-- ---------------------------------------------------------------------------
-- Key evaluation (DescriptorNode::GetKeyReferences / GetPubkey)
-- ---------------------------------------------------------------------------

/-- Modelled from the spec: the sentinel argument (`kArgumentBaseExtkey`,
declared in the descriptor header) selecting the stored base extkey and
skipping re-derivation. -/
def kArgumentBaseExtkey : List Char := "base".toList

/-- `DescriptorNode::GetKeyReferences`: resolve this key node, popping one
argument from the back of the vector when the key carries a wildcard.
The `KeyData` re-parse of the original key text (a `try` block in the
source) reproduces the same key material by construction of the external
model, so it is the identity here. -/
def getKeyReferences (node : DNode) (args? : ArgsM) :
    Except DErr (DKeyRef × ArgsM) := do
  let d := node.data
  match d.keyType with
  | .public => do
    let s := match d.keyInfo with | .text s => s | .ext _ => []
    match hexDecode s with
    | none => throw .invalidHex
    | some bytes =>
      let pubkey := PubkeyM.raw bytes
      if !pubkey.isValid then throw .invalidPubkeyData
      else
        return ({ keyType := .public, pubkey := pubkey,
                  schnorrPubkey := schnorrFromPubkey pubkey }, args?)
  | .schnorr => do
    let s := match d.keyInfo with | .text s => s | .ext _ => []
    match hexDecode s with
    | none => throw .invalidHex
    | some bytes =>
      let schnorr := SchnorrM.raw bytes
      let pubkey := schnorr.createPubkey
      if !pubkey.isValid then throw .invalidPubkeyData
      else
        return ({ keyType := .schnorr, pubkey := pubkey,
                  schnorrPubkey := schnorr }, args?)
  | .bip32 | .bip32Priv => do
    let usingKey0 ← match d.keyInfo with
      | .ext k => pure k
      | .text _ => throw .invalidExtkeyText
    let step : Except DErr (List Char × Bool × ExtKeyM × Nat × ArgsM) :=
      if d.needArgNum = 0 then .ok ([], false, usingKey0, 0, args?)
      else match args? with
        | none => .error .generateFromHdkey
        | some l =>
          if l.isEmpty then .error .generateFromHdkey
          else if l.headD [] = kArgumentBaseExtkey then
            .ok ([], false, d.baseExtkey.getD usingKey0, 0, some l)
          else
            .ok (l.getLastD [], true, usingKey0, d.needArgNum,
                 some l.dropLast)
    let (argValue, argUsed, usingKey, needArg, args?) ← step
    if d.keyType = .bip32Priv then do
      if !usingKey.isPriv then throw .invalidExtkeyText
      else pure ()
      let xpriv ← if needArg ≠ 0 then extDerive usingKey argValue
                  else pure usingKey
      let xpub := xpriv.toPub
      return ({ keyType := .bip32Priv, pubkey := xpub.pubkey,
                schnorrPubkey := schnorrFromPubkey xpub.pubkey,
                extkey := some xpriv,
                argument := if argUsed then argValue else [] }, args?)
    else do
      if usingKey.isPriv then throw .invalidExtkeyText
      else pure ()
      let xpub ← if needArg ≠ 0 then extDerive usingKey argValue
                 else pure usingKey
      return ({ keyType := .bip32, pubkey := xpub.pubkey,
                schnorrPubkey := schnorrFromPubkey xpub.pubkey,
                extkey := some xpub,
                argument := if argUsed then argValue else [] }, args?)
  | .null => throw .invalidPubkeyData

/-- `DescriptorNode::GetPubkey`. -/
def getPubkey (node : DNode) (args? : ArgsM) :
    Except DErr (PubkeyM × ArgsM) := do
  let (ref, args?) ← getKeyReferences node args?
  return (ref.pubkey, args?)

-- ---------------------------------------------------------------------------
-- Script evaluation (DescriptorNode::GetReferences / GetTapBranch)
-- ---------------------------------------------------------------------------

/-- Modelled from the spec: `std::sort(pubkeys, Pubkey::IsLarge)` of the
`sortedmulti` evaluator.  `std::sort` with the strict comparator
`IsLarge` orders by the non-strict relation `¬ IsLarge b a`, i.e.
descending by pubkey bytes (equal elements are interchangeable, so a
deterministic sort models it exactly). -/
def sortPubkeysDesc (l : List PubkeyM) : List PubkeyM :=
  List.insertionSort (fun a b => lexLtBytes a.bytes b.bytes = false) l

/-- The sort of tapleaf keys in `GetTapBranch`: by text length,
descending (`std::sort` with the strict longer-than comparator; ties are
left in map order, a deterministic refinement of the unspecified
`std::sort` tie order). -/
def sortTapPairs (l : List (List Char × DNode)) : List (List Char × DNode) :=
  List.insertionSort (fun a b => b.1.length ≤ a.1.length) l

/-- The root argument reversal of `GetReferences`: at depth 0 a non-null
caller vector of more than one element is reversed once, so that popping
from the back matches left-to-right wildcard order. -/
def rootReverse (depth : Nat) (args0 : ArgsM) : ArgsM :=
  match args0 with
  | some l => if depth = 0 ∧ 1 < l.length then some l.reverse else some l
  | none => none

/-- The key/pubkey collection loop of the `multi`/`sortedmulti` branch
(`for index = 1 .. size-1: GetKeyReferences`). -/
def multiCollect : List DNode → ArgsM →
    Except DErr (List DKeyRef × List PubkeyM × ArgsM)
  | [], args? => .ok ([], [], args?)
  | child :: rest, args? => do
    let (keyRef, args?) ← getKeyReferences child args?
    let (keys, pubkeys, args?) ← multiCollect rest args?
    return (keyRef :: keys, keyRef.pubkey :: pubkeys, args?)

/-- The compressed-pubkey probe loop of `AnalyzeAll` for
`multi`/`sortedmulti` under `wsh`: push one `"0"` per key child and probe
`GetPubkey`. -/
def wshMultiCompressCheck : List DNode → List (List Char) →
    Except DErr Unit
  | [], _ => .ok ()
  | child :: rest, tempArgs =>
    if child.data.nodeType = .number then
      wshMultiCompressCheck rest tempArgs
    else do
      let tempArgs := tempArgs ++ ["0".toList]
      let (pk, tempArgs') ← getPubkey child (some tempArgs)
      if !pk.isCompress then throw .multisigUncompressed
      else wshMultiCompressCheck rest (tempArgs'.getD [])

/-- The tapleaf rewrite loop of `GetTapBranch`: for each leaf (in sorted
key order) compute its canonical text (x-only hex for key leaves,
`tl(<script hex>)` for script leaves) and substitute it into the tree
text. `recurRef` is the nested `GetReference` evaluation. -/
def tapRewriteLoop
    (recurRef : DNode → ArgsM → Except DErr (DScriptRef × ArgsM)) :
    List (List Char × DNode) → List Char → ScriptM → ArgsM →
    Except DErr (List Char × ScriptM × ArgsM)
  | [], desc, firstScript, args? => .ok (desc, firstScript, args?)
  | (scriptStr, nodeRef) :: rest, desc, firstScript, args? => do
    let (target, firstScript, args?) ←
      if nodeRef.data.nodeType = .key then do
        let (keyRef, args?) ← getKeyReferences nodeRef args?
        pure (keyRef.schnorrPubkey.hex, firstScript, args?)
      else do
        let (obj, args?) ← recurRef nodeRef args?
        let script := if obj.redeemScript ≠ [] then obj.redeemScript
                      else obj.lockingScript
        let firstScript := if firstScript.isEmpty then script
                           else firstScript
        pure ("tl(".toList ++ scriptHex script ++ [')'], firstScript, args?)
    let desc := if scriptStr ≠ target then
        replaceLoop (desc.length + 1) desc scriptStr target
      else desc
    tapRewriteLoop recurRef rest desc firstScript args?

mutual
/-- `DescriptorNode::GetReferences`, fuelled on node depth (any fuel
above `nodeDepth` suffices).  At the root call (depth 0) a caller vector
of more than one argument is reversed once; arguments are then popped
from the back. -/
def getReferences : Nat → DNode → ArgsM → Option DNode →
    Except DErr (List DScriptRef × ArgsM)
  | 0, _, _, _ => .error .outOfFuel
  | fuel + 1, node, args0, parent? => do
    let d := node.data
    let args? : ArgsM := rootReverse d.depth args0
    if d.nodeType = .key then return ([], args?)
    else if d.nodeType = .number then return ([], args?)
    else if d.nodeType = .script then
      match d.scriptType with
      | .miniscript => do
        let (childNum, args?) ←
          if d.needArgNum = 0 then pure (0, args?)
          else match args? with
            | none => throw .miniscriptFromHdkey
            | some l =>
              if l.isEmpty then throw .miniscriptFromHdkey
              else if l.headD [] = kArgumentBaseExtkey then pure (0, some l)
              else do
                let argValue := l.getLastD []
                let l' := l.dropLast
                if (findSub argValue ['/']).isSome then
                  throw .miniscriptSingleChild
                else pure ()
                let digits := argValue.takeWhile Char.isDigit
                if digits.isEmpty then throw .stoulNoConversion
                else pure ()
                let endPos := digits.length
                if endPos ≠ 0 ∧ endPos < argValue.length then
                  throw .miniscriptNumberOnly
                else pure ()
                pure (digitsVal digits % 2 ^ 32, some l')
        match miniscriptCompile d.value childNum
            (d.parentKind = "tr".toList) with
        | some bytes =>
          if bytes.length ≤ d.number then do
            let r ← refRawType [.rawScript bytes] d.scriptType
            return ([r], args?)
          else throw .miniscriptParse
        | none => throw .miniscriptParse
      | .raw => do
        match hexDecode d.value with
        | none => throw .invalidHex
        | some bs => do
          let r ← refRawType [.rawScript bs] d.scriptType
          return ([r], args?)
      | .addr => do
        let a ← addressParse d.value
        return ([refAddr a], args?)
      | .multi | .sortedMulti => do
        let reqnum := (node.childNode.headD (dnodeNew {})).data.number
        let (keys, pubkeys, args?) ← multiCollect (node.childNode.drop 1) args?
        let pubkeys := if d.scriptType = .sortedMulti then
            sortPubkeysDesc pubkeys
          else pubkeys
        let hasWitness := match parent? with
          | some p => p.data.scriptType = .wsh
          | none => false
        let ls ← createMultisigRedeemScript reqnum pubkeys hasWitness
        return ([refKeys ls d.scriptType keys reqnum], args?)
      | .sh | .wsh => do
        let c0 := node.childNode.headD (dnodeNew {})
        let (refs, args?) ← getReferences fuel c0 args? (some node)
        let ref ← match refs with
          | r :: _ => pure r
          | [] => throw .emptyResult
        let script := ref.lockingScript
        let ls := if d.scriptType = .wsh then createP2wshLockingScript script
                  else createP2shLockingScript script
        return ([refChild ls d.scriptType ref], args?)
      | .taproot => do
        let c0 := node.childNode.headD (dnodeNew {})
        let (keyRef, args?) ← getKeyReferences c0 args?
        let pubkey := keyRef.schnorrPubkey
        let (branch, args?) ←
          if 2 ≤ node.childNode.length then
            getTapBranch fuel (node.childNode.getD 1 (dnodeNew {})) args?
          else pure (TapBranchM.empty, args?)
        if branch.hasTapLeaf then
          let ls := createTapScriptControl pubkey branch
          return ([refTap ls [keyRef] branch], args?)
        else
          let ls := createTapScriptControl pubkey branch
          return ([refTap ls [keyRef] branch], args?)
      | _ => do
        let c0 := node.childNode.headD (dnodeNew {})
        let (keyRef, args?) ← getKeyReferences c0 args?
        let bip32Type := match keyRef.extkey with
          | some k => k.format
          | none => Bip32Format.normal
        let pubkey := keyRef.pubkey
        if d.scriptType = .combo then
          let step1 : List DScriptRef × ScriptM :=
            if pubkey.isCompress then
              let step0 : List DScriptRef × ScriptM :=
                if bip32Type ≠ .bip49 then
                  let ls := createP2wpkhLockingScript pubkey
                  ([refKeys ls d.scriptType [keyRef] 0], ls)
                else ([], [])
              if bip32Type ≠ .bip84 then
                let childRef := refKeys step0.2 .wpkh [keyRef] 0
                let ls2 := createP2shLockingScript step0.2
                (step0.1 ++ [refChild ls2 d.scriptType childRef], ls2)
              else step0
            else ([], [])
          let result :=
            if bip32Type = .normal then
              let ls3 := createP2pkhLockingScript pubkey
              let ls4 : ScriptM := [.pushPub pubkey, .opCheckSig]
              step1.1 ++ [refKeys ls3 d.scriptType [keyRef] 0,
                          refKeys ls4 d.scriptType [keyRef] 0]
            else step1.1
          return (result, args?)
        else do
          let ls ←
            if d.scriptType = .pkh then
              if bip32Type ≠ .normal then throw .bipFormatPkh
              else pure (createP2pkhLockingScript pubkey)
            else if d.scriptType = .wpkh then
              if bip32Type = .bip49 ∧
                  (parent?.isNone ∨
                    (parent?.map (fun p => p.data.scriptType)) ≠ some .sh) then
                throw .bipFormatWpkh49
              else if bip32Type = .bip84 ∧ parent?.isSome then
                throw .bipFormatWpkh84
              else pure (createP2wpkhLockingScript pubkey)
            else if d.scriptType = .pk then
              if bip32Type ≠ .normal then throw .bipFormatPk
              else if d.parentKind = "tr".toList then
                pure [.pushXonly (schnorrFromPubkey pubkey), .opCheckSig]
              else pure [.pushPub pubkey, .opCheckSig]
            else pure []
          return ([refKeys ls d.scriptType [keyRef] 0], args?)
    else return ([], args?)

/-- `DescriptorNode::GetTapBranch`, fuelled like `getReferences`. -/
def getTapBranch : Nat → DNode → ArgsM →
    Except DErr (TapBranchM × ArgsM)
  | 0, _, _ => .error .outOfFuel
  | fuel + 1, node, args? => do
    let keyList := sortTapPairs node.treeNode
    let recurRef := fun n a => do
      let (refs, a') ← getReferences fuel n a none
      match refs with
      | r :: _ => pure (r, a')
      | ([] : List DScriptRef) => throw DErr.emptyResult
    let (desc, firstScript, args?) ←
      tapRewriteLoop recurRef keyList node.data.value [] args?
    if desc.isEmpty ∨ desc = [cLBrace, cRBrace] then
      return (TapBranchM.empty, args?)
    else do
      let tree ← tapBranchFromString desc
      let tree := if !tree.hasTapLeaf ∧ !firstScript.isEmpty then
          tree.changeTapLeaf (scriptBytes firstScript)
        else tree
      return (tree, args?)
end

/-- `DescriptorNode::GetReference`: first produced reference. -/
def getReference (fuel : Nat) (node : DNode) (args? : ArgsM)
    (parent? : Option DNode) : Except DErr (DScriptRef × ArgsM) := do
  let (refs, args?) ← getReferences fuel node args? parent?
  match refs with
  | r :: _ => pure (r, args?)
  | [] => throw .emptyResult

-- ---------------------------------------------------------------------------
-- Taproot tree parser (DescriptorNode::AnalyzeScriptTree) and validator
-- (DescriptorNode::AnalyzeAll)
-- ---------------------------------------------------------------------------

/-- The static script-operator table (`kDescriptorNodeScriptTable`):
name, script type, top-only, has-child, multisig. -/
structure DNodeScriptData where
  name : List Char
  stype : DScriptType
  topOnly : Bool
  hasChild : Bool
  multisig : Bool

/-- `kDescriptorNodeScriptTable`, in source order. -/
def kDescriptorNodeScriptTable : List DNodeScriptData :=
  [⟨"sh".toList, .sh, true, true, false⟩,
   ⟨"combo".toList, .combo, true, true, false⟩,
   ⟨"wsh".toList, .wsh, false, true, false⟩,
   ⟨"pk".toList, .pk, false, true, false⟩,
   ⟨"pkh".toList, .pkh, false, true, false⟩,
   ⟨"wpkh".toList, .wpkh, false, true, false⟩,
   ⟨"multi".toList, .multi, false, true, true⟩,
   ⟨"sortedmulti".toList, .sortedMulti, false, true, true⟩,
   ⟨"addr".toList, .addr, true, false, false⟩,
   ⟨"raw".toList, .raw, true, false, false⟩,
   ⟨"tr".toList, .taproot, true, true, false⟩]

/-- `std::map::emplace` on the ordered tapleaf map: insert in key order,
keep the existing entry when the key is already present. -/
def emplaceMap (m : List (List Char × DNode)) (k : List Char) (v : DNode) :
    List (List Char × DNode) :=
  match m with
  | [] => [(k, v)]
  | (k', v') :: rest =>
    if strLt k k' then (k, v) :: (k', v') :: rest
    else if k = k' then (k', v') :: rest
    else (k', v') :: emplaceMap rest k v

/-- Scan state of the `AnalyzeScriptTree` character loop. -/
structure AstState where
  scriptDepth : Nat
  offset : Nat
  tempName : List Char
  treeNode : List (List Char × DNode)
  children : List DNode

/-- Create and analyze one tapleaf node of `AnalyzeScriptTree`:
`recurChild` is the nested `AnalyzeChild(tapscript, 2)` (run only when a
name was captured), `recurAll` the nested `AnalyzeAll("tr")`. -/
def astEmit (recurChild : DNode → List Char → Nat → Except DErr DNode)
    (recurAll : DNode → Except DErr DNode) (tempName : List Char)
    (nodeType : DNodeType) (tapscript : List Char) : Except DErr DNode := do
  let node0 := dnodeNew
    { name := tempName, nodeType := nodeType, value := tapscript,
      depth := 1, parentKind := "tr".toList }
  let node1 ← if tempName ≠ [] then recurChild node0 tapscript 2
              else pure node0
  recurAll node1

/-- The character loop of `AnalyzeScriptTree`: a script-depth counter over
`(`/`)`, brace/space skipping outside script bodies, and leaf extraction
at `,`/`}` (key leaf when at least 64 hex characters) or at a closing
`)` at depth 0 (script leaf). -/
def astLoop (recurChild : DNode → List Char → Nat → Except DErr DNode)
    (recurAll : DNode → Except DErr DNode) (desc : List Char) :
    List Char → Nat → AstState → Except DErr AstState
  | [], _, st => .ok st
  | ch :: rest, idx, st =>
    if ch = ' ' ∨ ch = cLBrace then
      if st.scriptDepth = 0 then
        astLoop recurChild recurAll desc rest (idx + 1)
          { st with offset := st.offset + 1 }
      else astLoop recurChild recurAll desc rest (idx + 1) st
    else if ch = ',' ∨ ch = cRBrace then
      if st.scriptDepth = 0 then
        let tapscript := acSub desc st.offset idx
        if 64 ≤ tapscript.length then do
          let node ← astEmit recurChild recurAll st.tempName .key tapscript
          astLoop recurChild recurAll desc rest (idx + 1)
            { st with
              offset := idx + 1,
              treeNode := emplaceMap st.treeNode tapscript node,
              children := st.children ++ [node], tempName := [] }
        else
          astLoop recurChild recurAll desc rest (idx + 1)
            { st with offset := st.offset + 1 }
      else astLoop recurChild recurAll desc rest (idx + 1) st
    else if ch = '(' then
      let st := if st.scriptDepth = 0 then
          { st with tempName := acSub desc st.offset idx }
        else st
      astLoop recurChild recurAll desc rest (idx + 1)
        { st with scriptDepth := incU32 st.scriptDepth }
    else if ch = ')' then
      let sd := decU32 st.scriptDepth
      if sd = 0 then do
        let tapscript := acSub desc st.offset (idx + 1)
        let node ← astEmit recurChild recurAll st.tempName .script tapscript
        astLoop recurChild recurAll desc rest (idx + 1)
          { st with
            scriptDepth := sd, offset := idx + 1,
            treeNode := emplaceMap st.treeNode tapscript node,
            children := st.children ++ [node], tempName := [] }
      else
        astLoop recurChild recurAll desc rest (idx + 1)
          { st with scriptDepth := sd }
    else astLoop recurChild recurAll desc rest (idx + 1) st

/-- The count/arity guard block of the `multi`/`sortedmulti` branch of
`AnalyzeAll`: taproot rejection, minimum node count, required-signature
bounds (`1 <= k <= n`), and the pubkey-count limit (20 under `wsh`, 16
otherwise). -/
def multisigArityCheck (parentName : List Char) (node : DNode) :
    Except DErr Unit := do
  if node.data.parentKind = "tr".toList then throw .multisigTaproot
  else pure ()
  if node.childNode.length < 2 then throw .multisigNodeLow
  else pure ()
  let pubkeyNum := node.childNode.length - 1
  let req := (node.childNode.headD (dnodeNew {})).data.number
  if req = 0 ∨ pubkeyNum < req then throw .multisigReqNum
  else pure ()
  let maxPubkeyNum := if parentName = "wsh".toList then 20 else 16
  if pubkeyNum > maxPubkeyNum then throw .multisigPubkeyNum
  else pure ()

mutual
/-- `DescriptorNode::AnalyzeAll`, fuelled like `analyzeChild` (any fuel
of at least the input length suffices). -/
def analyzeAll : Nat → List Char → DNode → Except DErr DNode
  | 0, _, _ => .error .outOfFuel
  | fuel + 1, parentName, node => do
    let d := node.data
    if d.nodeType = .number then return node
    else if d.nodeType = .key then analyzeKey node
    else do
      if d.name = [] then throw .analyzeNg else pure ()
      match kDescriptorNodeScriptTable.find? (fun e => e.name = d.name) with
      | none =>
        if parentName = "wsh".toList ∨ parentName = "sh".toList ∨
            parentName = "tr".toList then
          let miniscript := d.name ++ ['('] ++ d.value ++ [')']
          match miniscriptCompile miniscript 0 (parentName = "tr".toList) with
          | some bytes =>
            return DNode.mk
              { d with
                scriptType := .miniscript, value := miniscript,
                name := "miniscript".toList, number := bytes.length % 2 ^ 32,
                needArgNum :=
                  if containsSub miniscript ['*'] then 1 else 0 }
              [] node.treeNode
          | none => throw .miniscriptFail
        else throw .analyzeNg
      | some entry => do
        if entry.topOnly ∧ d.depth ≠ 0 then throw .topOnly else pure ()
        if entry.hasChild then
          if node.childNode.isEmpty then throw .childNodeEmpty else pure ()
        else if !node.childNode.isEmpty then throw .childNodeNum
        else pure ()
        if entry.multisig then do
          multisigArityCheck parentName node
          let children ← node.childNode.mapM (analyzeAll fuel d.name)
          let node' := DNode.mk { d with scriptType := entry.stype }
            children node.treeNode
          if parentName = "sh".toList then do
            let (ref, _) ← getReference (nodeDepth node') node' none
              (some node')
            if scriptSize ref.lockingScript + 3 > 520 then
              throw .scriptSizeOver
            else return node'
          else if parentName = "wsh".toList then do
            wshMultiCompressCheck children []
            return node'
          else return node'
        else if d.name = "addr".toList then do
          let _ ← addressParse d.value
          return (node.withData { d with scriptType := entry.stype })
        else if d.name = "raw".toList then do
          match hexDecode d.value with
          | none => throw .invalidHex
          | some _ => return (node.withData { d with scriptType := entry.stype })
        else if d.name = "tr".toList then do
          if node.childNode.length ≠ 1 ∧ node.childNode.length ≠ 2 then
            throw .taprootNodeNum
          else pure ()
          let c0 := node.childNode.headD (dnodeNew {})
          let c0 := c0.withData
            { c0.data with nodeType := .key, parentKind := "tr".toList }
          let c0 ← analyzeAll fuel d.name c0
          let tempArgs : List (List Char) := ["0".toList]
          let (pk, tempArgs') ← getPubkey c0 (some tempArgs)
          if !pk.isCompress then throw .taprootUncompressed else pure ()
          if node.childNode.length = 2 then do
            let c1 := node.childNode.getD 1 (dnodeNew {})
            let c1 := c1.withData
              { c1.data with parentKind := "tr".toList }
            let c1 ← analyzeScriptTree fuel c1
            let tempArgs2 := tempArgs'.getD [] ++
              List.replicate (getNeedArgumentNum c1) "0".toList
            let _ ← getTapBranch (nodeDepth c1) c1 (some tempArgs2)
            return DNode.mk { d with scriptType := entry.stype } [c0, c1]
              node.treeNode
          else
            return DNode.mk { d with scriptType := entry.stype } [c0]
              node.treeNode
        else if node.childNode.length ≠ 1 then throw .childNodeNum
        else do
          let c0 := node.childNode.headD (dnodeNew {})
          if d.name = "wsh".toList ∧ parentName ≠ [] ∧
              parentName ≠ "sh".toList then throw .wshParent
          else if d.name = "wpkh".toList ∧ parentName ≠ [] ∧
              parentName ≠ "sh".toList then throw .wpkhParent
          else if (d.name = "wsh".toList ∨ d.name = "sh".toList) ∧
              c0.data.nodeType ≠ .script then throw .childScriptOnly
          else if d.name ≠ "wsh".toList ∧ d.name ≠ "sh".toList ∧
              c0.data.nodeType ≠ .key then throw .childKeyOnly
          else if parentName = "tr".toList ∧ d.name = "pkh".toList then
            throw .taprootPkh
          else pure ()
          let c0 := c0.withData { c0.data with parentKind := d.parentKind }
          let c0 ← analyzeAll fuel d.name c0
          let node' := DNode.mk { d with scriptType := entry.stype } [c0]
            node.treeNode
          if d.name = "wpkh".toList ∨ d.name = "wsh".toList then
            if existUncompressedKey node' then throw .uncompressedWitness
            else return node'
          else return node'

/-- `DescriptorNode::AnalyzeScriptTree`, fuelled like `analyzeAll`. -/
def analyzeScriptTree : Nat → DNode → Except DErr DNode
  | 0, _ => .error .outOfFuel
  | fuel + 1, node => do
    let desc := node.data.value
    let st0 : AstState :=
      { scriptDepth := 0, offset := 0, tempName := [],
        treeNode := [], children := [] }
    let st ← astLoop (analyzeChild fuel) (analyzeAll fuel "tr".toList)
      desc desc 0 st0
    if st.treeNode.isEmpty then
      if 64 ≤ node.data.value.length then do
        let leaf ← astEmit (analyzeChild fuel) (analyzeAll fuel "tr".toList)
          st.tempName .key node.data.value
        return DNode.mk node.data (node.childNode ++ [leaf])
          (emplaceMap st.treeNode node.data.value leaf)
      else throw .taprootEmptyScript
    else
      return DNode.mk node.data (node.childNode ++ st.children) st.treeNode
end

-- ---------------------------------------------------------------------------
-- Parse and the Descriptor API
-- ---------------------------------------------------------------------------

/-- `DescriptorNode::Parse`: structural parse, full analysis, then a
script-generation test run with the argument `"0"` supplied for every
wildcard position. -/
def descriptorNodeParse (s : List Char) : Except DErr DNode := do
  let node0 := dnodeNew { nodeType := .script }
  let node1 ← analyzeChild (s.length + 1) node0 s 0
  let node2 ← analyzeAll (s.length + 1) [] node1
  let list := List.replicate (getNeedArgumentNum node2) "0".toList
  let _ ← getReference (nodeDepth node2) node2 (some list) none
  return node2

/-- `Descriptor::Parse` (Bitcoin mainnet prefix table). -/
def descriptorParse (s : List Char) : Except DErr DNode :=
  descriptorNodeParse s

/-- `Descriptor::GetNeedArgumentNum`. -/
def descriptorNeedArgumentNum (root : DNode) : Nat :=
  getNeedArgumentNum root

/-- `Descriptor::GetReferenceAll`: the caller vector is copied (an empty
vector when absent) and handed to the root evaluation. -/
def descriptorGetReferenceAll (root : DNode)
    (args? : Option (List (List Char))) :
    Except DErr (List DScriptRef) := do
  let copyList := args?.getD []
  let (refs, _) ← getReferences (nodeDepth root) root (some copyList) none
  return refs

/-- `Descriptor::GetLockingScriptAll`. -/
def descriptorLockingScriptAll (root : DNode)
    (args? : Option (List (List Char))) : Except DErr (List ScriptM) := do
  let refs ← descriptorGetReferenceAll root args?
  return refs.map DScriptRef.lockingScript

/-- `Descriptor::GetLockingScript(array_argument)`. -/
def descriptorLockingScript (root : DNode) (args : List (List Char)) :
    Except DErr ScriptM := do
  let scripts ← descriptorLockingScriptAll root (some args)
  match scripts with
  | sc :: _ => pure sc
  | [] => throw .emptyResult

/-- `Descriptor::GetLockingScript()` (no arguments): requires a
wildcard-free descriptor. -/
def descriptorLockingScriptNoArg (root : DNode) : Except DErr ScriptM := do
  if descriptorNeedArgumentNum root ≠ 0 then throw .emptyArgument
  else pure ()
  descriptorLockingScript root []

/-- `Descriptor::ToString` / `DescriptorNode::ToString` at the root. -/
def descriptorToString (root : DNode) (appendChecksum : Bool) : List Char :=
  nodeToString root appendChecksum

-- ---------------------------------------------------------------------------
-- Helper lemmas
-- ---------------------------------------------------------------------------

/-- A wildcard path segment (`*`, `*'` or `*h`), as tested by the
`AnalyzeKey` path loop. -/
def isWildSeg (s : List Char) : Bool :=
  s = ['*'] || s = ['*', cApos] || s = ['*', 'h']

/-- A hardened wildcard segment (`*'` or `*h`). -/
def isHardWildSeg (s : List Char) : Bool :=
  s = ['*', cApos] || s = ['*', 'h']

/-- The BIP32 format class of a resolved key reference
(`Bip32FormatType` of its extended pubkey; `Normal` for plain keys). -/
def DKeyRef.bip32Type (keyRef : DKeyRef) : Bip32Format :=
  match keyRef.extkey with
  | some k => k.format
  | none => Bip32Format.normal

/-- The C4 counterexample descriptor:
`tr(xpubAAAA,\x7bpk(xpubBBBB/*),pk(xpubBBBB/*)\x7d)` — a taproot tree that
repeats one tapleaf expression. -/
def c4Trs : List Char :=
  String.toList "tr(xpubAAAA,\x7bpk(xpubBBBB/*),pk(xpubBBBB/*)\x7d)"

/-- First structural child of the parsed C4 descriptor (internal key). -/
def c4A : DNode :=
  DNode.mk { name := [], value := String.toList "xpubAAAA", keyInfo := KeyInfoM.text [], isUncompressedKey := false, baseExtkey := none, tweakSum := [], number := 0, checksum := [], depth := 1, needArgNum := 0, nodeType := DNodeType.key, scriptType := DScriptType.null, keyType := DKeyType.null, parentKind := [] } [] []

/-- Second structural child of the parsed C4 descriptor (script tree). -/
def c4B : DNode :=
  DNode.mk { name := [], value := String.toList "\x7bpk(xpubBBBB/*),pk(xpubBBBB/*)\x7d", keyInfo := KeyInfoM.text [], isUncompressedKey := false, baseExtkey := none, tweakSum := [], number := 0, checksum := [], depth := 1, needArgNum := 0, nodeType := DNodeType.script, scriptType := DScriptType.null, keyType := DKeyType.null, parentKind := [] } [] []

/-- `AnalyzeChild` output for the C4 descriptor. -/
def c4Nc : DNode :=
  DNode.mk { name := String.toList "tr", value := String.toList "\x7bpk(xpubBBBB/*),pk(xpubBBBB/*)\x7d", keyInfo := KeyInfoM.text [], isUncompressedKey := false, baseExtkey := none, tweakSum := [], number := 0, checksum := [], depth := 0, needArgNum := 0, nodeType := DNodeType.script, scriptType := DScriptType.null, keyType := DKeyType.null, parentKind := [] }
    [c4A, c4B] []

/-- The analyzed internal-key child of the C4 descriptor. -/
def c4C0 : DNode :=
  DNode.mk { name := [], value := String.toList "xpubAAAA", keyInfo := KeyInfoM.ext ⟨false, String.toList "xpubAAAA", []⟩, isUncompressedKey := false, baseExtkey := some ⟨false, String.toList "xpubAAAA", []⟩, tweakSum := [], number := 0, checksum := [], depth := 1, needArgNum := 0, nodeType := DNodeType.key, scriptType := DScriptType.null, keyType := DKeyType.bip32, parentKind := String.toList "tr" } [] []

/-- The analyzed script-tree child of the C4 descriptor: the duplicated
`pk` leaf appears twice in `childNode` but once in the `treeNode` map. -/
def c4Tree : DNode :=
  DNode.mk { name := [], value := String.toList "\x7bpk(xpubBBBB/*),pk(xpubBBBB/*)\x7d", keyInfo := KeyInfoM.text [], isUncompressedKey := false, baseExtkey := none, tweakSum := [], number := 0, checksum := [], depth := 1, needArgNum := 0, nodeType := DNodeType.script, scriptType := DScriptType.null, keyType := DKeyType.null, parentKind := String.toList "tr" }
    [(DNode.mk { name := String.toList "pk", value := String.toList "xpubBBBB/*", keyInfo := KeyInfoM.text [], isUncompressedKey := false, baseExtkey := none, tweakSum := [], number := 0, checksum := [], depth := 2, needArgNum := 0, nodeType := DNodeType.script, scriptType := DScriptType.pk, keyType := DKeyType.null, parentKind := String.toList "tr" }
    [DNode.mk { name := [], value := String.toList "xpubBBBB/*", keyInfo := KeyInfoM.ext ⟨false, String.toList "xpubBBBB", []⟩, isUncompressedKey := false, baseExtkey := some ⟨false, String.toList "xpubBBBB", []⟩, tweakSum := [], number := 0, checksum := [], depth := 3, needArgNum := 1, nodeType := DNodeType.key, scriptType := DScriptType.null, keyType := DKeyType.bip32, parentKind := String.toList "tr" } [] []]
    []),
     (DNode.mk { name := String.toList "pk", value := String.toList "xpubBBBB/*", keyInfo := KeyInfoM.text [], isUncompressedKey := false, baseExtkey := none, tweakSum := [], number := 0, checksum := [], depth := 2, needArgNum := 0, nodeType := DNodeType.script, scriptType := DScriptType.pk, keyType := DKeyType.null, parentKind := String.toList "tr" }
    [DNode.mk { name := [], value := String.toList "xpubBBBB/*", keyInfo := KeyInfoM.ext ⟨false, String.toList "xpubBBBB", []⟩, isUncompressedKey := false, baseExtkey := some ⟨false, String.toList "xpubBBBB", []⟩, tweakSum := [], number := 0, checksum := [], depth := 3, needArgNum := 1, nodeType := DNodeType.key, scriptType := DScriptType.null, keyType := DKeyType.bip32, parentKind := String.toList "tr" } [] []]
    [])]
    [(String.toList "pk(xpubBBBB/*)", (DNode.mk { name := String.toList "pk", value := String.toList "xpubBBBB/*", keyInfo := KeyInfoM.text [], isUncompressedKey := false, baseExtkey := none, tweakSum := [], number := 0, checksum := [], depth := 2, needArgNum := 0, nodeType := DNodeType.script, scriptType := DScriptType.pk, keyType := DKeyType.null, parentKind := String.toList "tr" }
    [DNode.mk { name := [], value := String.toList "xpubBBBB/*", keyInfo := KeyInfoM.ext ⟨false, String.toList "xpubBBBB", []⟩, isUncompressedKey := false, baseExtkey := some ⟨false, String.toList "xpubBBBB", []⟩, tweakSum := [], number := 0, checksum := [], depth := 3, needArgNum := 1, nodeType := DNodeType.key, scriptType := DScriptType.null, keyType := DKeyType.bip32, parentKind := String.toList "tr" } [] []]
    []))]

/-- The fully analyzed C4 tree, as returned by `Parse`. -/
def c4Nt : DNode :=
  DNode.mk { name := String.toList "tr", value := String.toList "\x7bpk(xpubBBBB/*),pk(xpubBBBB/*)\x7d", keyInfo := KeyInfoM.text [], isUncompressedKey := false, baseExtkey := none, tweakSum := [], number := 0, checksum := [], depth := 0, needArgNum := 0, nodeType := DNodeType.script, scriptType := DScriptType.taproot, keyType := DKeyType.null, parentKind := [] }
    [c4C0, c4Tree] []

/-- The tap branch computed for the C4 tree (one rewritten leaf). -/
def c4Branch : TapBranchM :=
  ⟨String.toList "\x7btl(2036022c78707562424242422d302eac),tl(2036022c78707562424242422d302eac)\x7d", none⟩

theorem containsSub_single (s : List Char) (c : Char) :
    containsSub s [c] = true ↔ c ∈ s := by
  induction s with
  | nil => simp [containsSub]
  | cons x rest ih =>
    show (List.isPrefixOf [c] (x :: rest) || containsSub rest [c]) = true ↔
      c ∈ x :: rest
    have h1 : List.isPrefixOf [c] (x :: rest) = (c == x) := by
      simp [List.isPrefixOf]
    rw [h1, Bool.or_eq_true, beq_iff_eq, ih, List.mem_cons]

theorem indexOf?_none_iff_not_mem (l : List Char) (c : Char) :
    l.indexOf? c = none ↔ c ∉ l := by
  rw [List.indexOf?_eq_none_iff]
  constructor
  · intro h hc
    exact absurd (by simp : (c == c) = true) (by simpa using h c hc)
  · intro h x hx
    simp only [beq_iff_eq]
    intro he
    exact h (he ▸ hx)

theorem genChecksumLoop_all_mem (d : List Char) :
    ∀ c cls cnt, (∀ ch ∈ d, ch ∈ kInputCharset) →
    ∃ v, genChecksumLoop d c cls cnt = some v := by
  induction d with
  | nil => intro c cls cnt _; exact ⟨_, rfl⟩
  | cons ch rest ih =>
    intro c cls cnt h
    have hch : ch ∈ kInputCharset := h ch (List.mem_cons_self ch rest)
    have hrest : ∀ x ∈ rest, x ∈ kInputCharset := fun x hx =>
      h x (List.mem_cons_of_mem ch hx)
    rw [genChecksumLoop]
    match hidx : kInputCharset.indexOf? ch with
    | none =>
      exact absurd ((indexOf?_none_iff_not_mem _ _).mp hidx) (by simpa using hch)
    | some pos =>
      simp only []
      split
      · exact ih _ _ _ hrest
      · exact ih _ _ _ hrest

theorem genChecksumLoop_bad_mem (d : List Char) :
    ∀ c cls cnt, (∃ ch ∈ d, ch ∉ kInputCharset) →
    genChecksumLoop d c cls cnt = none := by
  induction d with
  | nil => intro c cls cnt h; simp at h
  | cons ch rest ih =>
    intro c cls cnt h
    rw [genChecksumLoop]
    match hidx : kInputCharset.indexOf? ch with
    | none => rfl
    | some pos =>
      have hch : ch ∈ kInputCharset := by
        by_contra hno
        rw [(indexOf?_none_iff_not_mem _ _).mpr hno] at hidx
        exact Option.noConfusion hidx
      obtain ⟨x, hx, hxn⟩ := h
      rcases List.mem_cons.mp hx with h1 | h2
      · exact absurd (h1 ▸ hch) hxn
      · simp only []
        split
        · exact ih _ _ _ ⟨x, h2, hxn⟩
        · exact ih _ _ _ ⟨x, h2, hxn⟩

/-- `GenerateChecksum` returns the empty string exactly when some input
character is outside the input charset. -/
theorem generateChecksum_empty_iff (d : List Char) :
    generateChecksum d = [] ↔ ∃ ch ∈ d, ch ∉ kInputCharset := by
  constructor
  · intro h
    by_contra hno
    push_neg at hno
    obtain ⟨v, hv⟩ := genChecksumLoop_all_mem d 1 0 0 hno
    rw [generateChecksum, hv] at h
    simp [List.range_succ] at h
  · intro h
    rw [generateChecksum, genChecksumLoop_bad_mem d 1 0 0 h]

theorem isOk_bind_false {α β : Type} (x : Except DErr α)
    (f : α → Except DErr β) (h : ∀ a, (f a).isOk = false) :
    (x >>= f).isOk = false := by
  cases x with
  | error e => rfl
  | ok a => exact h a

theorem acLoop_two_sharp_fails
    (recur : DNode → List Char → Nat → Except DErr DNode)
    (descriptor : List Char) (depth : Nat) :
    ∀ chars idx st, descriptor.drop idx = chars →
    2 ≤ chars.count '#' →
    (acLoop recur descriptor depth chars idx st).isOk = false := by
  intro chars
  induction chars with
  | nil => intro idx st _ hc; simp at hc
  | cons ch rest ih =>
    intro idx st hdrop hc
    have hdrop' : descriptor.drop (idx + 1) = rest := by
      have h1 : descriptor.drop (idx + 1) = (descriptor.drop idx).drop 1 := by
        rw [List.drop_drop, Nat.add_comm]
      rw [h1, hdrop, List.drop_one, List.tail_cons]
    rw [acLoop]
    by_cases hsharp : ch = '#'
    · subst hsharp
      cases hterm : st.isTerminate with
      | true =>
        have hcount : 0 < rest.count '#' := by
          rw [List.count_cons_self] at hc
          omega
        have hmem : '#' ∈ rest := List.count_pos_iff.mp hcount
        have hcontains : containsSub (descriptor.drop (idx + 1)) ['#'] = true := by
          rw [hdrop']; exact (containsSub_single _ _).mpr hmem
        simp [hterm, hcontains, Except.isOk, Except.toBool]
      | false =>
        simp [hterm, Except.isOk, Except.toBool]
    · have hc' : 2 ≤ rest.count '#' := by
        rw [List.count_cons_of_ne (by simpa [eq_comm] using hsharp)] at hc
        exact hc
      simp only [if_neg hsharp]
      repeat' split
      all_goals first
        | rfl
        | exact ih (idx + 1) _ hdrop' hc'
        | (apply isOk_bind_false; intro a; exact ih (idx + 1) _ hdrop' hc')

theorem isOk_bind_false₁ {α β : Type} (x : Except DErr α)
    (f : α → Except DErr β) (h : x.isOk = false) :
    (x >>= f).isOk = false := by
  cases x with
  | error e => rfl
  | ok a => exact absurd h (by simp [Except.isOk, Except.toBool])

theorem analyzeChild_two_sharp_fails (fuel : Nat) (self : DNode)
    (s : List Char) (depth : Nat) (h : 2 ≤ s.count '#') :
    (analyzeChild fuel self s depth).isOk = false := by
  cases fuel with
  | zero => rfl
  | succ fuel =>
    rw [analyzeChild]
    apply isOk_bind_false₁
    exact acLoop_two_sharp_fails _ s depth s 0 _ (by simp) h

theorem generateChecksum_ne_nil (d : List Char)
    (h : ∀ ch ∈ d, ch ∈ kInputCharset) : generateChecksum d ≠ [] := by
  obtain ⟨v, hv⟩ := genChecksumLoop_all_mem d 1 0 0 h
  rw [generateChecksum, hv]
  simp [List.range_succ]

/-- C7: checksum verification fails with the wrong-length error
("Expected 8 character checksum") when the checksum part is not 8
characters; any descriptor containing more than one `#` fails structural
analysis; the checksum computation returns the empty string exactly when
some payload character is outside the input alphabet, in which case
verification fails with the invalid-character error; and when the
payload is clean but the computed checksum differs from the supplied
one, verification fails with the mismatch error. -/
theorem claim_C7 :
    (∀ checksum descriptor : List Char, checksum.length ≠ 8 →
      checkChecksum checksum descriptor = .error .checksumLength) ∧
    (∀ (fuel : Nat) (self : DNode) (s : List Char) (depth : Nat),
      2 ≤ s.count '#' → (analyzeChild fuel self s depth).isOk = false) ∧
    (∀ descriptor : List Char,
      generateChecksum descriptor = [] ↔
        ∃ ch ∈ descriptor, ch ∉ kInputCharset) ∧
    (∀ checksum descriptor : List Char, checksum.length = 8 →
      (∃ ch ∈ descriptor, ch ∉ kInputCharset) →
      checkChecksum checksum descriptor = .error .invalidPayloadChar) ∧
    (∀ checksum descriptor : List Char, checksum.length = 8 →
      (∀ ch ∈ descriptor, ch ∈ kInputCharset) →
      checksum ≠ generateChecksum descriptor →
      checkChecksum checksum descriptor = .error .checksumUnmatch) := by
  refine ⟨?_, analyzeChild_two_sharp_fails, generateChecksum_empty_iff, ?_, ?_⟩
  · intro cs d h
    simp [checkChecksum, h]
  · intro cs d hlen hbad
    have hempty : generateChecksum d = [] :=
      (generateChecksum_empty_iff d).mpr hbad
    simp [checkChecksum, hlen, hempty]
  · intro cs d hlen hgood hne
    have hnonempty := generateChecksum_ne_nil d hgood
    simp [checkChecksum, hlen, hne]
    intro hified
    exact absurd hified hnonempty

set_option maxRecDepth 100000 in
/-- Witness for C7 at concrete inputs. -/
theorem claim_C7_witness :
    checkChecksum "abc".toList "raw(00)".toList = .error .checksumLength ∧
    (analyzeChild 10 (dnodeNew { nodeType := .script })
      "raw(00)#a#b".toList 0).isOk = false ∧
    checkChecksum "aaaaaaaa".toList [Char.ofNat 9] =
      .error .invalidPayloadChar ∧
    checkChecksum "aaaaaaaa".toList "raw(00)".toList =
      .error .checksumUnmatch :=
  ⟨claim_C7.1 _ _ (by decide),
   claim_C7.2.1 10 _ _ 0 (by decide),
   claim_C7.2.2.2.1 _ _ (by decide) ⟨Char.ofNat 9, by decide, by decide⟩,
   claim_C7.2.2.2.2 _ _ (by decide) (by decide) (by decide)⟩

-- ---------------------------------------------------------------------------
-- C8: wildcard placement rules of AnalyzeKey
-- ---------------------------------------------------------------------------

theorem keyPathScan_first_wild (w : List Char) (post : List (List Char))
    (hw : isWildSeg w = true) :
    ∀ (pre : List (List Char)) (i : Nat) (p : List Char),
    (∀ s ∈ pre, isWildSeg s = false) →
    (keyPathScan (pre ++ w :: post) i p).1 = i + pre.length ∧
    (keyPathScan (pre ++ w :: post) i p).2.2 = isHardWildSeg w := by
  intro pre
  induction pre with
  | nil =>
    intro i p _
    simp only [List.nil_append, List.length_nil, Nat.add_zero]
    simp only [isWildSeg, Bool.or_eq_true, decide_eq_true_eq] at hw
    rcases hw with (h1 | h2) | h3
    · rw [keyPathScan, if_pos h1]
      subst h1
      exact ⟨rfl, rfl⟩
    · have hne : ¬ (w = ['*']) := by subst h2; decide
      rw [keyPathScan, if_neg hne, if_pos (Or.inl h2)]
      subst h2
      exact ⟨rfl, rfl⟩
    · have hne : ¬ (w = ['*']) := by subst h3; decide
      rw [keyPathScan, if_neg hne, if_pos (Or.inr h3)]
      subst h3
      exact ⟨rfl, rfl⟩
  | cons s pre ih =>
    intro i p hall
    have hs : isWildSeg s = false := hall s (List.mem_cons_self s pre)
    have hns : ∀ x ∈ pre, isWildSeg x = false := fun x hx =>
      hall x (List.mem_cons_of_mem s hx)
    simp only [isWildSeg, Bool.or_eq_false_iff, decide_eq_false_iff_not] at hs
    obtain ⟨⟨h1, h2⟩, h3⟩ := hs
    have step : keyPathScan ((s :: pre) ++ w :: post) i p =
        keyPathScan (pre ++ w :: post) (i + 1)
          (if i ≠ 1 then p ++ ['/'] ++ s else p ++ s) := by
      show keyPathScan (s :: (pre ++ w :: post)) i p = _
      rw [keyPathScan, if_neg h1, if_neg (by tauto)]
    rw [step]
    obtain ⟨ha, hb⟩ := ih (i + 1) (if i ≠ 1 then p ++ ['/'] ++ s else p ++ s) hns
    refine ⟨?_, hb⟩
    rw [ha]
    simp only [List.length_cons]
    omega

theorem analyzeKey_nonfinal_wildcard (n : DNode) (v base : List Char)
    (pre : List (List Char)) (w : List Char) (post : List (List Char))
    (hv : n.data.value = v)
    (horig : ¬ (v.headD ' ' = '['))
    (hlen : 4 < v.length)
    (htop : (v.drop 1).take 3 = "pub".toList ∨
      (v.drop 1).take 3 = "prv".toList)
    (hsplit : splitStr v '/' = base :: (pre ++ w :: post))
    (hw : isWildSeg w = true)
    (hpre : ∀ s ∈ pre, isWildSeg s = false)
    (hpost : post ≠ []) :
    analyzeKey n = .error .extkeyPathWildcard := by
  obtain ⟨hidx, _⟩ := keyPathScan_first_wild w post hw pre 1 [] hpre
  have hlistlen : (base :: (pre ++ w :: post)).length =
      pre.length + post.length + 2 := by
    simp [List.length_append]
    omega
  simp only [analyzeKey, hv, if_neg horig, if_pos hlen, if_pos htop, hsplit]
  have hgt1 : 1 < (base :: (pre ++ w :: post)).length := by
    rw [hlistlen]; omega
  rw [if_pos hgt1]
  simp only [List.drop_succ_cons, List.drop_zero, hidx]
  have hcond : 1 < (base :: (pre ++ w :: post)).length ∧
      1 + pre.length + 1 < (base :: (pre ++ w :: post)).length := by
    refine ⟨hgt1, ?_⟩
    rw [hlistlen]
    have : post.length ≠ 0 := by
      intro h0
      exact hpost (List.length_eq_zero.mp h0)
    omega
  rw [if_pos hcond]
  rfl

theorem isHardWildSeg_isWildSeg (s : List Char)
    (h : isHardWildSeg s = true) : isWildSeg s = true := by
  simp only [isHardWildSeg, Bool.or_eq_true, decide_eq_true_eq] at h
  simp only [isWildSeg, Bool.or_eq_true, decide_eq_true_eq]
  tauto

theorem first_wild_decomp (segs : List (List Char))
    (h : ∃ s ∈ segs, isWildSeg s = true) :
    ∃ pre w post, segs = pre ++ w :: post ∧ isWildSeg w = true ∧
      ∀ s ∈ pre, isWildSeg s = false := by
  induction segs with
  | nil => simp at h
  | cons s rest ih =>
    cases hsw : isWildSeg s with
    | true => exact ⟨[], s, rest, rfl, hsw, by simp⟩
    | false =>
      obtain ⟨x, hx, hxw⟩ := h
      rcases List.mem_cons.mp hx with h1 | h2
      · exact absurd (h1 ▸ hxw) (by simp [hsw])
      · obtain ⟨pre, w, post, he, hw, hpre⟩ := ih ⟨x, h2, hxw⟩
        refine ⟨s :: pre, w, post, by simp [he], hw, ?_⟩
        intro t ht
        rcases List.mem_cons.mp ht with h3 | h4
        · exact h3 ▸ hsw
        · exact hpre t h4

theorem analyzeKey_hardened_pub (n : DNode) (v base : List Char)
    (pre : List (List Char)) (w : List Char)
    (hv : n.data.value = v)
    (horig : ¬ (v.headD ' ' = '['))
    (hlen : 4 < v.length)
    (htop : (v.drop 1).take 3 = "pub".toList)
    (hsplit : splitStr v '/' = base :: (pre ++ [w]))
    (hw : isHardWildSeg w = true)
    (hpre : ∀ s ∈ pre, isWildSeg s = false) :
    analyzeKey n = .error .hardenedPubkey := by
  obtain ⟨hidx, hhard⟩ := keyPathScan_first_wild w []
    (isHardWildSeg_isWildSeg w hw) pre 1 [] hpre
  have hlistlen : (base :: (pre ++ [w])).length = pre.length + 2 := by
    simp
  simp only [analyzeKey, hv, if_neg horig, if_pos hlen, htop]
  rw [if_pos (Or.inl trivial)]
  simp only [hsplit]
  have hgt1 : 1 < (base :: (pre ++ [w])).length := by rw [hlistlen]; omega
  rw [if_pos hgt1]
  simp only [List.drop_succ_cons, List.drop_zero, hidx, hhard, hw]
  have hcond : ¬ (1 < (base :: (pre ++ [w])).length ∧
      1 + pre.length + 1 < (base :: (pre ++ [w])).length) := by
    rw [hlistlen]
    omega
  rw [if_neg hcond]
  have hnp : ¬ ("pub".toList = "prv".toList) := by decide
  rw [if_neg hnp]
  have hkt : ¬ (DKeyType.bip32 = DKeyType.bip32Priv) := by decide
  rw [if_neg hkt]
  rfl

theorem analyzeKey_pub_hardened_any (n : DNode) (v base : List Char)
    (segs : List (List Char))
    (hv : n.data.value = v)
    (horig : ¬ (v.headD ' ' = '['))
    (hlen : 4 < v.length)
    (htop : (v.drop 1).take 3 = "pub".toList)
    (hsplit : splitStr v '/' = base :: segs)
    (hhard : ∃ s ∈ segs, isHardWildSeg s = true) :
    (analyzeKey n).isOk = false := by
  obtain ⟨x, hx, hxh⟩ := hhard
  obtain ⟨pre, w, post, he, hw, hpre⟩ :=
    first_wild_decomp segs ⟨x, hx, isHardWildSeg_isWildSeg x hxh⟩
  cases post with
  | nil =>
    have hwh : isHardWildSeg w = true := by
      subst he
      rcases List.mem_append.mp hx with h1 | h2
      · exact absurd (isHardWildSeg_isWildSeg x hxh)
          (by simp [hpre x h1])
      · rcases List.mem_cons.mp h2 with h3 | h4
        · exact h3 ▸ hxh
        · simp at h4
    rw [analyzeKey_hardened_pub n v base pre w hv horig hlen htop
      (he ▸ hsplit) hwh hpre]
    rfl
  | cons q post' =>
    rw [analyzeKey_nonfinal_wildcard n v base pre w (q :: post') hv horig hlen
      (Or.inl htop) (he ▸ hsplit) hw hpre (by simp)]
    rfl

theorem analyzeKey_priv_hardened_final (n : DNode) (v base w : List Char)
    (k : ExtKeyM)
    (hv : n.data.value = v)
    (horig : ¬ (v.headD ' ' = '['))
    (hlen : 4 < v.length)
    (htop : (v.drop 1).take 3 = "prv".toList)
    (hsplit : splitStr v '/' = [base, w])
    (hw : isHardWildSeg w = true)
    (hstar : containsSub v ['*'] = true)
    (hbase : extKeyFromText true base = .ok k) :
    analyzeKey n = .ok (n.withData
      { n.data with
        keyType := .bip32Priv, keyInfo := .ext k, baseExtkey := some k,
        tweakSum := k.path, needArgNum := 1 }) := by
  have hscan : keyPathScan [w] 1 [] = (1, [], true) := by
    simp only [isHardWildSeg, Bool.or_eq_true, decide_eq_true_eq] at hw
    rcases hw with h | h <;> subst h <;> rfl
  simp only [analyzeKey, hv, if_neg horig, if_pos hlen, htop]
  rw [if_pos (Or.inr trivial)]
  simp only [hsplit]
  have hgt1 : 1 < ([base, w] : List (List Char)).length := by simp
  rw [if_pos hgt1]
  simp only [List.drop_succ_cons, List.drop_zero, hscan]
  have hcond : ¬ ((1 : Nat) < ([base, w] : List (List Char)).length ∧
      1 + 1 < ([base, w] : List (List Char)).length) := by
    simp
  rw [if_neg hcond]
  have hneed : (1 : Nat) < ([base, w] : List (List Char)).length ∧
      containsSub v ['*'] = true := ⟨by simp, hstar⟩
  rw [if_pos hneed]
  simp [hbase]

/-- C8: in a BIP32 key expression, a wildcard segment (`*`, `*'`, `*h`)
followed by any further path segment makes key analysis fail with the
non-terminal-wildcard error; a hardened wildcard anywhere in an xpub
(Bip32Pub) path makes key analysis fail; a hardened wildcard as the final
segment of an xprv (Bip32Priv) expression is accepted, with one wildcard
argument required. -/
theorem claim_C8 :
    (∀ (n : DNode) (v base : List Char) (pre : List (List Char))
      (w : List Char) (post : List (List Char)),
      n.data.value = v → ¬ (v.headD ' ' = '[') → 4 < v.length →
      ((v.drop 1).take 3 = "pub".toList ∨ (v.drop 1).take 3 = "prv".toList) →
      splitStr v '/' = base :: (pre ++ w :: post) →
      isWildSeg w = true → (∀ s ∈ pre, isWildSeg s = false) → post ≠ [] →
      analyzeKey n = .error .extkeyPathWildcard) ∧
    (∀ (n : DNode) (v base : List Char) (segs : List (List Char)),
      n.data.value = v → ¬ (v.headD ' ' = '[') → 4 < v.length →
      (v.drop 1).take 3 = "pub".toList → splitStr v '/' = base :: segs →
      (∃ s ∈ segs, isHardWildSeg s = true) →
      (analyzeKey n).isOk = false) ∧
    (∀ (n : DNode) (v base w : List Char) (k : ExtKeyM),
      n.data.value = v → ¬ (v.headD ' ' = '[') → 4 < v.length →
      (v.drop 1).take 3 = "prv".toList → splitStr v '/' = [base, w] →
      isHardWildSeg w = true → containsSub v ['*'] = true →
      extKeyFromText true base = .ok k →
      analyzeKey n = .ok (n.withData
        { n.data with
          keyType := .bip32Priv, keyInfo := .ext k, baseExtkey := some k,
          tweakSum := k.path, needArgNum := 1 })) :=
  ⟨analyzeKey_nonfinal_wildcard, analyzeKey_pub_hardened_any,
   analyzeKey_priv_hardened_final⟩

set_option maxRecDepth 100000 in
/-- Witness for C8 at concrete key expressions. -/
theorem claim_C8_witness :
    analyzeKey (dnodeNew { value := "xpubAB/*/1".toList, nodeType := .key })
      = .error .extkeyPathWildcard ∧
    (analyzeKey (dnodeNew
      { value := "xpubAB/0/*h".toList, nodeType := .key })).isOk = false ∧
    analyzeKey (dnodeNew { value := "xprvAB/*h".toList, nodeType := .key })
      = .ok ((dnodeNew
        { value := "xprvAB/*h".toList, nodeType := .key }).withData
        { (dnodeNew
            { value := "xprvAB/*h".toList, nodeType := .key }).data with
          keyType := .bip32Priv, keyInfo := .ext ⟨true, "xprvAB".toList, []⟩,
          baseExtkey := some ⟨true, "xprvAB".toList, []⟩,
          tweakSum := [], needArgNum := 1 }) :=
  ⟨claim_C8.1 _ "xpubAB/*/1".toList "xpubAB".toList [] ['*'] ["1".toList]
     rfl (by decide) (by decide) (Or.inl (by decide)) (by decide)
     (by decide) (by decide) (by decide),
   claim_C8.2.1 _ "xpubAB/0/*h".toList "xpubAB".toList
     ["0".toList, ['*', 'h']] rfl (by decide) (by decide) (by decide)
     (by decide) ⟨['*', 'h'], by decide, by decide⟩,
   claim_C8.2.2 _ "xprvAB/*h".toList "xprvAB".toList ['*', 'h']
     ⟨true, "xprvAB".toList, []⟩ rfl (by decide) (by decide) (by decide)
     (by decide) (by decide) (by decide) rfl⟩

-- ---------------------------------------------------------------------------
-- C9: multisig count/arity checks
-- ---------------------------------------------------------------------------

theorem multisigArityCheck_eq (parentName : List Char) (node : DNode) :
    multisigArityCheck parentName node =
      (if node.data.parentKind = "tr".toList then .error .multisigTaproot
       else if node.childNode.length < 2 then .error .multisigNodeLow
       else if (node.childNode.headD (dnodeNew {})).data.number = 0 ∨
           node.childNode.length - 1 <
             (node.childNode.headD (dnodeNew {})).data.number then
         .error .multisigReqNum
       else if node.childNode.length - 1 >
           (if parentName = "wsh".toList then 20 else 16) then
         .error .multisigPubkeyNum
       else .ok ()) := by
  by_cases h1 : node.data.parentKind = "tr".toList
  · simp only [multisigArityCheck, if_pos h1]
    rfl
  · by_cases h2 : node.childNode.length < 2
    · simp only [multisigArityCheck, if_neg h1, if_pos h2]
      rfl
    · by_cases h3 : (node.childNode.headD (dnodeNew {})).data.number = 0 ∨
          node.childNode.length - 1 <
            (node.childNode.headD (dnodeNew {})).data.number
      · simp only [multisigArityCheck, if_neg h1, if_neg h2, if_pos h3]
        rfl
      · by_cases h4 : node.childNode.length - 1 >
            (if parentName = "wsh".toList then 20 else 16)
        · simp only [multisigArityCheck, if_neg h1, if_neg h2, if_neg h3,
            if_pos h4]
          rfl
        · simp only [multisigArityCheck, if_neg h1, if_neg h2, if_neg h3,
            if_neg h4]
          rfl

theorem multisigArityCheck_propagate (fuel : Nat) (parentName : List Char)
    (node : DNode) (e : DErr)
    (hnt : node.data.nodeType = .script)
    (hname : node.data.name = "multi".toList ∨
      node.data.name = "sortedmulti".toList)
    (hne : node.childNode ≠ [])
    (hcheck : multisigArityCheck parentName node = .error e) :
    analyzeAll (fuel + 1) parentName node = .error e := by
  have hempty : node.childNode.isEmpty = false := by
    cases hc : node.childNode with
    | nil => exact absurd hc hne
    | cons a l => rfl
  rcases hname with h | h
  · simp only [analyzeAll, hnt, h]
    rw [if_neg (by decide), if_neg (by decide),
      if_neg (by decide : ¬ ("multi".toList = ([] : List Char)))]
    have hfind : kDescriptorNodeScriptTable.find?
        (fun en => en.name = "multi".toList) =
        some ⟨"multi".toList, .multi, false, true, true⟩ := by rfl
    rw [hfind]
    simp only [hempty, hcheck]
    rfl
  · simp only [analyzeAll, hnt, h]
    rw [if_neg (by decide), if_neg (by decide),
      if_neg (by decide : ¬ ("sortedmulti".toList = ([] : List Char)))]
    have hfind : kDescriptorNodeScriptTable.find?
        (fun en => en.name = "sortedmulti".toList) =
        some ⟨"sortedmulti".toList, .sortedMulti, false, true, true⟩ := by rfl
    rw [hfind]
    simp only [hempty, hcheck]
    rfl

/-- C9: for a `multi`/`sortedmulti` node with required count `k` and `n`
pubkeys (children = count node plus `n` key nodes), the arity guard of
analysis fails with the require-num error unless `1 ≤ k ≤ n`, fails with
the pubkey-num error when `n` exceeds the limit — 20 when the parent is
`wsh`, 16 otherwise — and succeeds exactly within these bounds (and
outside a taproot scope, with at least two child nodes); `AnalyzeAll`
propagates any such failure. -/
theorem claim_C9 :
    (∀ (parentName : List Char) (node : DNode),
      multisigArityCheck parentName node = .ok () ↔
        (¬ (node.data.parentKind = "tr".toList) ∧
         2 ≤ node.childNode.length ∧
         1 ≤ (node.childNode.headD (dnodeNew {})).data.number ∧
         (node.childNode.headD (dnodeNew {})).data.number ≤
           node.childNode.length - 1 ∧
         node.childNode.length - 1 ≤
           (if parentName = "wsh".toList then 20 else 16))) ∧
    (∀ (parentName : List Char) (node : DNode),
      ¬ (node.data.parentKind = "tr".toList) →
      2 ≤ node.childNode.length →
      ((node.childNode.headD (dnodeNew {})).data.number = 0 ∨
        node.childNode.length - 1 <
          (node.childNode.headD (dnodeNew {})).data.number) →
      multisigArityCheck parentName node = .error .multisigReqNum) ∧
    (∀ (parentName : List Char) (node : DNode),
      ¬ (node.data.parentKind = "tr".toList) →
      2 ≤ node.childNode.length →
      1 ≤ (node.childNode.headD (dnodeNew {})).data.number →
      (node.childNode.headD (dnodeNew {})).data.number ≤
        node.childNode.length - 1 →
      (if parentName = "wsh".toList then 20 else 16) <
        node.childNode.length - 1 →
      multisigArityCheck parentName node = .error .multisigPubkeyNum) ∧
    (∀ (fuel : Nat) (parentName : List Char) (node : DNode) (e : DErr),
      node.data.nodeType = .script →
      (node.data.name = "multi".toList ∨
        node.data.name = "sortedmulti".toList) →
      node.childNode ≠ [] →
      multisigArityCheck parentName node = .error e →
      analyzeAll (fuel + 1) parentName node = .error e) := by
  refine ⟨?_, ?_, ?_, multisigArityCheck_propagate⟩
  · intro parentName node
    rw [multisigArityCheck_eq]
    by_cases h1 : node.data.parentKind = "tr".toList
    · rw [if_pos h1]; simp [h1]
    · rw [if_neg h1]
      by_cases h2 : node.childNode.length < 2
      · rw [if_pos h2]
        constructor
        · intro h; exact absurd h (by simp)
        · rintro ⟨_, hlen, _⟩; omega
      · rw [if_neg h2]
        by_cases h3 : (node.childNode.headD (dnodeNew {})).data.number = 0 ∨
            node.childNode.length - 1 <
              (node.childNode.headD (dnodeNew {})).data.number
        · rw [if_pos h3]
          constructor
          · intro h; exact absurd h (by simp)
          · rintro ⟨_, _, hk1, hk2, _⟩; omega
        · rw [if_neg h3]
          by_cases h4 : node.childNode.length - 1 >
              (if parentName = "wsh".toList then 20 else 16)
          · rw [if_pos h4]
            constructor
            · intro h; exact absurd h (by simp)
            · rintro ⟨_, _, _, _, hn⟩; omega
          · rw [if_neg h4]
            constructor
            · intro _
              refine ⟨h1, by omega, by omega, by omega, by omega⟩
            · intro _; rfl
  · intro parentName node h1 h2 h3
    rw [multisigArityCheck_eq, if_neg h1, if_neg (by omega), if_pos h3]
  · intro parentName node h1 h2 h3 h4 h5
    rw [multisigArityCheck_eq, if_neg h1, if_neg (by omega),
      if_neg (by omega), if_pos (by omega)]

set_option maxRecDepth 100000 in
/-- Witness for C9: a 2-of-3 guard passes; a 3-of-2 fails; 17 keys fail
outside `wsh`; `AnalyzeAll` propagates a failure. -/
theorem claim_C9_witness :
    (multisigArityCheck [] (DNode.mk
      { nodeType := .script, name := "multi".toList }
      (dnodeNew { nodeType := .number, number := 2 } ::
        List.replicate 3 (dnodeNew { nodeType := .key })) []) = .ok ()) ∧
    (multisigArityCheck [] (DNode.mk
      { nodeType := .script, name := "multi".toList }
      (dnodeNew { nodeType := .number, number := 3 } ::
        List.replicate 2 (dnodeNew { nodeType := .key })) []) =
      .error .multisigReqNum) ∧
    (multisigArityCheck [] (DNode.mk
      { nodeType := .script, name := "multi".toList }
      (dnodeNew { nodeType := .number, number := 1 } ::
        List.replicate 17 (dnodeNew { nodeType := .key })) []) =
      .error .multisigPubkeyNum) ∧
    (analyzeAll 5 [] (DNode.mk
      { nodeType := .script, name := "multi".toList }
      (dnodeNew { nodeType := .number, number := 3 } ::
        List.replicate 2 (dnodeNew { nodeType := .key })) []) =
      .error .multisigReqNum) :=
  ⟨(claim_C9.1 [] _).mpr (by refine ⟨by decide, ?_, ?_, ?_, ?_⟩ <;> decide),
   claim_C9.2.1 [] _ (by decide) (by decide) (by decide),
   claim_C9.2.2.1 [] _ (by decide) (by decide) (by decide) (by decide)
     (by decide),
   claim_C9.2.2.2 4 [] _ .multisigReqNum (by decide) (Or.inl (by decide))
     (List.cons_ne_nil _ _)
     (claim_C9.2.1 [] _ (by decide) (by decide) (by decide))⟩

-- ---------------------------------------------------------------------------
-- C5: combo evaluation
-- ---------------------------------------------------------------------------

theorem except_ok_bind {α β : Type} (a : α) (f : α → Except DErr β) :
    (Except.ok a >>= f) = f a := rfl

set_option maxHeartbeats 2000000 in
theorem combo_refs_shape (fuel : Nat) (node : DNode) (args0 : ArgsM)
    (parent? : Option DNode) (keyRef : DKeyRef) (argsRest : ArgsM)
    (hnt : node.data.nodeType = .script)
    (hst : node.data.scriptType = .combo)
    (hkey : getKeyReferences (node.childNode.headD (dnodeNew {}))
      (rootReverse node.data.depth args0) = .ok (keyRef, argsRest)) :
    getReferences (fuel + 1) node args0 parent? = .ok (
      ((if keyRef.pubkey.isCompress = true then
          (if keyRef.bip32Type ≠ .bip49 then
            [refKeys (createP2wpkhLockingScript keyRef.pubkey) DScriptType.combo
              [keyRef] 0]
           else []) ++
          (if keyRef.bip32Type ≠ .bip84 then
            [refChild
              (createP2shLockingScript
                (if keyRef.bip32Type ≠ .bip49 then
                  createP2wpkhLockingScript keyRef.pubkey
                 else []))
              DScriptType.combo
              (refKeys
                (if keyRef.bip32Type ≠ .bip49 then
                  createP2wpkhLockingScript keyRef.pubkey
                 else [])
                DScriptType.wpkh [keyRef] 0)]
           else [])
        else []) ++
       (if keyRef.bip32Type = .normal then
          [refKeys (createP2pkhLockingScript keyRef.pubkey) DScriptType.combo
            [keyRef] 0,
           refKeys [.pushPub keyRef.pubkey, .opCheckSig] DScriptType.combo
            [keyRef] 0]
        else [])), argsRest) := by
  rw [getReferences.eq_def]
  simp only [hnt, hst]
  simp only [if_true]
  show (getKeyReferences (node.childNode.headD (dnodeNew {}))
      (rootReverse node.data.depth args0) >>= _) = _
  rw [hkey, except_ok_bind]
  simp only [DKeyRef.bip32Type]
  obtain ⟨kt, pk, spk, ek, arg⟩ := keyRef
  cases ek with
  | none => cases hcomp : pk.isCompress <;> simp [hcomp] <;> rfl
  | some k =>
      cases hcomp : pk.isCompress <;>
        cases hfmt : k.format <;> simp [hcomp, hfmt] <;> rfl

/-- C5: a `combo(K)` node emits, in this order: a P2WPKH reference when
the key is compressed and its BIP32 format is not BIP49; a nested
P2SH-P2WPKH reference when the key is compressed and the format is not
BIP84; and a P2PKH then a bare P2PK reference when the format is Normal.
In particular an uncompressed plain key yields exactly the P2PKH and
P2PK references. -/
theorem claim_C5 :
    (∀ (fuel : Nat) (node : DNode) (args0 : ArgsM) (parent? : Option DNode)
      (keyRef : DKeyRef) (argsRest : ArgsM),
      node.data.nodeType = .script → node.data.scriptType = .combo →
      getKeyReferences (node.childNode.headD (dnodeNew {}))
        (rootReverse node.data.depth args0) = .ok (keyRef, argsRest) →
      getReferences (fuel + 1) node args0 parent? = .ok (
        ((if keyRef.pubkey.isCompress = true then
            (if keyRef.bip32Type ≠ .bip49 then
              [refKeys (createP2wpkhLockingScript keyRef.pubkey) DScriptType.combo
                [keyRef] 0]
             else []) ++
            (if keyRef.bip32Type ≠ .bip84 then
              [refChild
                (createP2shLockingScript
                  (if keyRef.bip32Type ≠ .bip49 then
                    createP2wpkhLockingScript keyRef.pubkey
                   else []))
                DScriptType.combo
                (refKeys
                  (if keyRef.bip32Type ≠ .bip49 then
                    createP2wpkhLockingScript keyRef.pubkey
                   else [])
                  DScriptType.wpkh [keyRef] 0)]
             else [])
          else []) ++
         (if keyRef.bip32Type = .normal then
            [refKeys (createP2pkhLockingScript keyRef.pubkey) DScriptType.combo
              [keyRef] 0,
             refKeys [.pushPub keyRef.pubkey, .opCheckSig] DScriptType.combo
              [keyRef] 0]
          else [])), argsRest)) ∧
    (∀ (fuel : Nat) (node : DNode) (args0 : ArgsM) (parent? : Option DNode)
      (keyRef : DKeyRef) (argsRest : ArgsM) (b : List Nat),
      node.data.nodeType = .script → node.data.scriptType = .combo →
      getKeyReferences (node.childNode.headD (dnodeNew {}))
        (rootReverse node.data.depth args0) = .ok (keyRef, argsRest) →
      keyRef.pubkey = .raw b → b.length = 65 → keyRef.extkey = none →
      getReferences (fuel + 1) node args0 parent? = .ok (
        [refKeys (createP2pkhLockingScript keyRef.pubkey)
           DScriptType.combo [keyRef] 0,
         refKeys [.pushPub keyRef.pubkey, .opCheckSig]
           DScriptType.combo [keyRef] 0],
        argsRest)) := by
  refine ⟨combo_refs_shape, ?_⟩
  intro fuel node args0 parent? keyRef argsRest b hnt hst hkey hraw h65 hext
  have hcomp : keyRef.pubkey.isCompress = false := by
    rw [hraw]
    simp [PubkeyM.isCompress, h65]
  have hfmt : keyRef.bip32Type = .normal := by
    simp [DKeyRef.bip32Type, hext]
  rw [combo_refs_shape fuel node args0 parent? keyRef argsRest hnt hst hkey]
  rw [hcomp, hfmt]
  simp

set_option maxRecDepth 100000 in
/-- Witness for C5: a `combo` node over the compressed public key
02c6047f... yields the P2WPKH, nested P2SH-P2WPKH, P2PKH and P2PK
references, in that order. -/
theorem claim_C5_witness :
    getReferences 1
      (DNode.mk
        { nodeType := DNodeType.script, scriptType := DScriptType.combo }
        [DNode.mk
          { nodeType := DNodeType.key, keyType := DKeyType.public,
            keyInfo := KeyInfoM.text (String.toList "02c6047f9441ed7d6d3045406e95c07cd85c778e4b8cef3ca7abac09b95c709ee5") }
          [] []]
        [])
      none none =
    .ok
      ([refKeys
          (createP2wpkhLockingScript (PubkeyM.raw [2, 198, 4, 127, 148, 65, 237, 125, 109, 48, 69, 64, 110, 149, 192, 124, 216, 92, 119, 142, 75, 140, 239, 60, 167, 171, 172, 9, 185, 92, 112, 158, 229]))
          DScriptType.combo
          [{ keyType := DKeyType.public,
             pubkey := PubkeyM.raw [2, 198, 4, 127, 148, 65, 237, 125, 109, 48, 69, 64, 110, 149, 192, 124, 216, 92, 119, 142, 75, 140, 239, 60, 167, 171, 172, 9, 185, 92, 112, 158, 229],
             schnorrPubkey := schnorrFromPubkey (PubkeyM.raw [2, 198, 4, 127, 148, 65, 237, 125, 109, 48, 69, 64, 110, 149, 192, 124, 216, 92, 119, 142, 75, 140, 239, 60, 167, 171, 172, 9, 185, 92, 112, 158, 229]) }]
          0,
        refChild
          (createP2shLockingScript (createP2wpkhLockingScript (PubkeyM.raw [2, 198, 4, 127, 148, 65, 237, 125, 109, 48, 69, 64, 110, 149, 192, 124, 216, 92, 119, 142, 75, 140, 239, 60, 167, 171, 172, 9, 185, 92, 112, 158, 229])))
          DScriptType.combo
          (refKeys
            (createP2wpkhLockingScript (PubkeyM.raw [2, 198, 4, 127, 148, 65, 237, 125, 109, 48, 69, 64, 110, 149, 192, 124, 216, 92, 119, 142, 75, 140, 239, 60, 167, 171, 172, 9, 185, 92, 112, 158, 229]))
            DScriptType.wpkh
            [{ keyType := DKeyType.public,
               pubkey := PubkeyM.raw [2, 198, 4, 127, 148, 65, 237, 125, 109, 48, 69, 64, 110, 149, 192, 124, 216, 92, 119, 142, 75, 140, 239, 60, 167, 171, 172, 9, 185, 92, 112, 158, 229],
               schnorrPubkey := schnorrFromPubkey (PubkeyM.raw [2, 198, 4, 127, 148, 65, 237, 125, 109, 48, 69, 64, 110, 149, 192, 124, 216, 92, 119, 142, 75, 140, 239, 60, 167, 171, 172, 9, 185, 92, 112, 158, 229]) }]
            0),
        refKeys
          (createP2pkhLockingScript (PubkeyM.raw [2, 198, 4, 127, 148, 65, 237, 125, 109, 48, 69, 64, 110, 149, 192, 124, 216, 92, 119, 142, 75, 140, 239, 60, 167, 171, 172, 9, 185, 92, 112, 158, 229]))
          DScriptType.combo
          [{ keyType := DKeyType.public,
             pubkey := PubkeyM.raw [2, 198, 4, 127, 148, 65, 237, 125, 109, 48, 69, 64, 110, 149, 192, 124, 216, 92, 119, 142, 75, 140, 239, 60, 167, 171, 172, 9, 185, 92, 112, 158, 229],
             schnorrPubkey := schnorrFromPubkey (PubkeyM.raw [2, 198, 4, 127, 148, 65, 237, 125, 109, 48, 69, 64, 110, 149, 192, 124, 216, 92, 119, 142, 75, 140, 239, 60, 167, 171, 172, 9, 185, 92, 112, 158, 229]) }]
          0,
        refKeys
          [SElem.pushPub (PubkeyM.raw [2, 198, 4, 127, 148, 65, 237, 125, 109, 48, 69, 64, 110, 149, 192, 124, 216, 92, 119, 142, 75, 140, 239, 60, 167, 171, 172, 9, 185, 92, 112, 158, 229]),
           SElem.opCheckSig]
          DScriptType.combo
          [{ keyType := DKeyType.public,
             pubkey := PubkeyM.raw [2, 198, 4, 127, 148, 65, 237, 125, 109, 48, 69, 64, 110, 149, 192, 124, 216, 92, 119, 142, 75, 140, 239, 60, 167, 171, 172, 9, 185, 92, 112, 158, 229],
             schnorrPubkey := schnorrFromPubkey (PubkeyM.raw [2, 198, 4, 127, 148, 65, 237, 125, 109, 48, 69, 64, 110, 149, 192, 124, 216, 92, 119, 142, 75, 140, 239, 60, 167, 171, 172, 9, 185, 92, 112, 158, 229]) }]
          0],
       none) :=
  claim_C5.1 0
    (DNode.mk
      { nodeType := DNodeType.script, scriptType := DScriptType.combo }
      [DNode.mk
        { nodeType := DNodeType.key, keyType := DKeyType.public,
          keyInfo := KeyInfoM.text (String.toList "02c6047f9441ed7d6d3045406e95c07cd85c778e4b8cef3ca7abac09b95c709ee5") }
        [] []]
      [])
    none none
    { keyType := DKeyType.public,
      pubkey := PubkeyM.raw [2, 198, 4, 127, 148, 65, 237, 125, 109, 48, 69, 64, 110, 149, 192, 124, 216, 92, 119, 142, 75, 140, 239, 60, 167, 171, 172, 9, 185, 92, 112, 158, 229],
      schnorrPubkey := schnorrFromPubkey (PubkeyM.raw [2, 198, 4, 127, 148, 65, 237, 125, 109, 48, 69, 64, 110, 149, 192, 124, 216, 92, 119, 142, 75, 140, 239, 60, 167, 171, 172, 9, 185, 92, 112, 158, 229]) }
    none rfl rfl rfl

-- ---------------------------------------------------------------------------
-- C1: sortedmulti sorts pubkeys descending before building the script
-- ---------------------------------------------------------------------------

theorem lexLt_nil_right : ∀ x : List Nat, lexLtBytes x [] = false
  | [] => rfl
  | _ :: _ => rfl

theorem lexLt_asymm : ∀ x y : List Nat,
    lexLtBytes x y = true → lexLtBytes y x = false
  | [], [], h => by simp [lexLtBytes] at h
  | [], _ :: _, _ => rfl
  | _ :: _, [], h => by simp [lexLtBytes] at h
  | a :: as, b :: bs, h => by
    simp only [lexLtBytes] at h ⊢
    by_cases hab : a < b
    · have : ¬ b < a := by omega
      simp [hab, this]
    · by_cases hba : b < a
      · simp [hab, hba] at h
      · simp [hab, hba] at h ⊢
        exact lexLt_asymm as bs h

theorem lexLt_false_trans : ∀ x y z : List Nat,
    lexLtBytes x y = false → lexLtBytes y z = false → lexLtBytes x z = false
  | _, _, [], _, _ => lexLt_nil_right _
  | [], [], _ :: _, _, h2 => h2
  | [], _ :: _, _ :: _, h1, _ => by simp [lexLtBytes] at h1
  | _ :: _, [], _ :: _, _, h2 => by simp [lexLtBytes] at h2
  | a :: as, b :: bs, c :: cs, h1, h2 => by
    simp only [lexLtBytes] at h1 h2 ⊢
    by_cases hab : a < b
    · simp [hab] at h1
    · by_cases hbc : b < c
      · simp [hbc] at h2
      · by_cases hac : a < c
        · omega
        · by_cases hca : c < a
          · simp [hac, hca]
          · have hba : ¬ b < a := by omega
            have hcb : ¬ c < b := by omega
            simp [hab, hba] at h1
            simp [hbc, hcb] at h2
            simp [hac, hca]
            exact lexLt_false_trans as bs cs h1 h2

theorem lexLt_eq_of_not_lt : ∀ x y : List Nat,
    lexLtBytes x y = false → lexLtBytes y x = false → x = y
  | [], [], _, _ => rfl
  | [], _ :: _, h1, _ => by simp [lexLtBytes] at h1
  | _ :: _, [], _, h2 => by simp [lexLtBytes] at h2
  | a :: as, b :: bs, h1, h2 => by
    simp only [lexLtBytes] at h1 h2
    by_cases hab : a < b
    · simp [hab] at h1
    · by_cases hba : b < a
      · simp [hab, hba] at h1
        simp [hba] at h2
      · have : a = b := by omega
        subst this
        simp [hab, hba] at h1 h2
        rw [lexLt_eq_of_not_lt as bs h1 h2]

theorem sortPubkeysDesc_sorted (l : List PubkeyM) :
    (sortPubkeysDesc l).Sorted
      (fun a b => lexLtBytes a.bytes b.bytes = false) := by
  haveI : IsTotal PubkeyM (fun a b => lexLtBytes a.bytes b.bytes = false) :=
    ⟨fun a b => by
      cases h : lexLtBytes a.bytes b.bytes
      · exact Or.inl rfl
      · exact Or.inr (lexLt_asymm _ _ h)⟩
  haveI : IsTrans PubkeyM (fun a b => lexLtBytes a.bytes b.bytes = false) :=
    ⟨fun a b c h1 h2 => lexLt_false_trans _ _ _ h1 h2⟩
  exact List.sorted_insertionSort _ l

theorem sortPubkeysDesc_perm (l : List PubkeyM) :
    (sortPubkeysDesc l).Perm l :=
  List.perm_insertionSort _ l

theorem createMultisig_ok_shape (reqnum : Nat) (pubkeys : List PubkeyM)
    (hw : Bool) (ls : ScriptM)
    (h : createMultisigRedeemScript reqnum pubkeys hw = .ok ls) :
    ls = [SElem.num reqnum] ++ pubkeys.map SElem.pushPub ++
      [SElem.num pubkeys.length, SElem.opCheckMultiSig] := by
  by_cases hc : (reqnum = 0 ∨ pubkeys.length < reqnum ∨ pubkeys.length = 0 ∨
      pubkeys.length > (if hw then 20 else 16))
  · unfold createMultisigRedeemScript at h
    rw [if_pos hc] at h
    cases h
  · unfold createMultisigRedeemScript at h
    rw [if_neg hc] at h
    exact (Except.ok.inj h).symm

set_option maxHeartbeats 2000000 in
/-- C1: a `sortedmulti(k, K1...Kn)` node first sorts the collected
pubkeys with `sortPubkeysDesc` (insertion under the negated
`lexLtBytes`, i.e. descending per `Pubkey::IsLarge` / BIP67) and only
then assembles the multisig locking script
`OP_k <sorted keys> OP_n OP_CHECKMULTISIG`: the emitted script embeds
the sorted list, which is a permutation of the collected list, pairwise
descending (each key `IsLarge` than, or byte-equal to, every later
one). -/
theorem claim_C1 (fuel : Nat) (node : DNode) (args0 : ArgsM)
    (parent? : Option DNode) (keys : List DKeyRef)
    (pubkeys : List PubkeyM) (argsRest : ArgsM) (ls : ScriptM)
    (hnt : node.data.nodeType = .script)
    (hst : node.data.scriptType = .sortedMulti)
    (hcol : multiCollect (node.childNode.drop 1)
      (rootReverse node.data.depth args0) = .ok (keys, pubkeys, argsRest))
    (hms : createMultisigRedeemScript
      (node.childNode.headD (dnodeNew {})).data.number
      (sortPubkeysDesc pubkeys)
      (match parent? with
        | some p => p.data.scriptType = .wsh
        | none => false) = .ok ls) :
    getReferences (fuel + 1) node args0 parent? =
      .ok ([refKeys ls DScriptType.sortedMulti keys
        (node.childNode.headD (dnodeNew {})).data.number], argsRest) ∧
    ls = [SElem.num (node.childNode.headD (dnodeNew {})).data.number] ++
      (sortPubkeysDesc pubkeys).map SElem.pushPub ++
      [SElem.num (sortPubkeysDesc pubkeys).length, SElem.opCheckMultiSig] ∧
    (sortPubkeysDesc pubkeys).Perm pubkeys ∧
    (sortPubkeysDesc pubkeys).Sorted
      (fun a b => lexLtBytes a.bytes b.bytes = false) ∧
    (sortPubkeysDesc pubkeys).Pairwise
      (fun a b => pubkeyIsLarge a b = true ∨ a.bytes = b.bytes) := by
  refine ⟨?_, ?_, sortPubkeysDesc_perm pubkeys, sortPubkeysDesc_sorted pubkeys, ?_⟩
  · rw [getReferences.eq_def]
    simp only [hnt, hst]
    simp only [if_true]
    show (multiCollect (node.childNode.drop 1)
      (rootReverse node.data.depth args0) >>= _) = _
    rw [hcol, except_ok_bind]
    dsimp only []
    rw [hms, except_ok_bind]
    rfl
  · exact createMultisig_ok_shape _ _ _ _ hms
  · exact (sortPubkeysDesc_sorted pubkeys).imp (fun h => by
      rename_i a b
      cases hba : lexLtBytes b.bytes a.bytes
      · exact Or.inr (lexLt_eq_of_not_lt _ _ h hba)
      · exact Or.inl hba)

set_option maxRecDepth 100000 in
/-- Witness for C1: `sortedmulti(1, 02c6..., 03f0...)` — the collected
pubkeys arrive in ascending byte order and the emitted script pushes
them descending (the 03 key first). -/
theorem claim_C1_witness :
    getReferences 1 (DNode.mk
      { nodeType := DNodeType.script, scriptType := DScriptType.sortedMulti }
      [DNode.mk { nodeType := DNodeType.number, number := 1 } [] [],
       DNode.mk { nodeType := DNodeType.key, keyType := DKeyType.public, keyInfo := KeyInfoM.text (String.toList "02c6047f9441ed7d6d3045406e95c07cd85c778e4b8cef3ca7abac09b95c709ee5") } [] [],
       DNode.mk { nodeType := DNodeType.key, keyType := DKeyType.public, keyInfo := KeyInfoM.text (String.toList "03f028892bad7ed57d2fb57bf33081d5cfcf6f9ed3d3d7f159c2e2fff579dc341a") } [] []]
      []) none none =
      .ok ([refKeys [SElem.num 1, SElem.pushPub (PubkeyM.raw [3, 240, 40, 137, 43, 173, 126, 213, 125, 47, 181, 123, 243, 48, 129, 213, 207, 207, 111, 158, 211, 211, 215, 241, 89, 194, 226, 255, 245, 121, 220, 52, 26]), SElem.pushPub (PubkeyM.raw [2, 198, 4, 127, 148, 65, 237, 125, 109, 48, 69, 64, 110, 149, 192, 124, 216, 92, 119, 142, 75, 140, 239, 60, 167, 171, 172, 9, 185, 92, 112, 158, 229]), SElem.num 2, SElem.opCheckMultiSig] DScriptType.sortedMulti
        [{ keyType := DKeyType.public, pubkey := PubkeyM.raw [2, 198, 4, 127, 148, 65, 237, 125, 109, 48, 69, 64, 110, 149, 192, 124, 216, 92, 119, 142, 75, 140, 239, 60, 167, 171, 172, 9, 185, 92, 112, 158, 229], schnorrPubkey := schnorrFromPubkey (PubkeyM.raw [2, 198, 4, 127, 148, 65, 237, 125, 109, 48, 69, 64, 110, 149, 192, 124, 216, 92, 119, 142, 75, 140, 239, 60, 167, 171, 172, 9, 185, 92, 112, 158, 229]) },
         { keyType := DKeyType.public, pubkey := PubkeyM.raw [3, 240, 40, 137, 43, 173, 126, 213, 125, 47, 181, 123, 243, 48, 129, 213, 207, 207, 111, 158, 211, 211, 215, 241, 89, 194, 226, 255, 245, 121, 220, 52, 26], schnorrPubkey := schnorrFromPubkey (PubkeyM.raw [3, 240, 40, 137, 43, 173, 126, 213, 125, 47, 181, 123, 243, 48, 129, 213, 207, 207, 111, 158, 211, 211, 215, 241, 89, 194, 226, 255, 245, 121, 220, 52, 26]) }] 1], none) ∧
    [SElem.num 1, SElem.pushPub (PubkeyM.raw [3, 240, 40, 137, 43, 173, 126, 213, 125, 47, 181, 123, 243, 48, 129, 213, 207, 207, 111, 158, 211, 211, 215, 241, 89, 194, 226, 255, 245, 121, 220, 52, 26]), SElem.pushPub (PubkeyM.raw [2, 198, 4, 127, 148, 65, 237, 125, 109, 48, 69, 64, 110, 149, 192, 124, 216, 92, 119, 142, 75, 140, 239, 60, 167, 171, 172, 9, 185, 92, 112, 158, 229]), SElem.num 2, SElem.opCheckMultiSig] = [SElem.num 1] ++
      (sortPubkeysDesc [PubkeyM.raw [2, 198, 4, 127, 148, 65, 237, 125, 109, 48, 69, 64, 110, 149, 192, 124, 216, 92, 119, 142, 75, 140, 239, 60, 167, 171, 172, 9, 185, 92, 112, 158, 229], PubkeyM.raw [3, 240, 40, 137, 43, 173, 126, 213, 125, 47, 181, 123, 243, 48, 129, 213, 207, 207, 111, 158, 211, 211, 215, 241, 89, 194, 226, 255, 245, 121, 220, 52, 26]]).map SElem.pushPub ++
      [SElem.num (sortPubkeysDesc [PubkeyM.raw [2, 198, 4, 127, 148, 65, 237, 125, 109, 48, 69, 64, 110, 149, 192, 124, 216, 92, 119, 142, 75, 140, 239, 60, 167, 171, 172, 9, 185, 92, 112, 158, 229], PubkeyM.raw [3, 240, 40, 137, 43, 173, 126, 213, 125, 47, 181, 123, 243, 48, 129, 213, 207, 207, 111, 158, 211, 211, 215, 241, 89, 194, 226, 255, 245, 121, 220, 52, 26]]).length, SElem.opCheckMultiSig] ∧
    (sortPubkeysDesc [PubkeyM.raw [2, 198, 4, 127, 148, 65, 237, 125, 109, 48, 69, 64, 110, 149, 192, 124, 216, 92, 119, 142, 75, 140, 239, 60, 167, 171, 172, 9, 185, 92, 112, 158, 229], PubkeyM.raw [3, 240, 40, 137, 43, 173, 126, 213, 125, 47, 181, 123, 243, 48, 129, 213, 207, 207, 111, 158, 211, 211, 215, 241, 89, 194, 226, 255, 245, 121, 220, 52, 26]]).Perm [PubkeyM.raw [2, 198, 4, 127, 148, 65, 237, 125, 109, 48, 69, 64, 110, 149, 192, 124, 216, 92, 119, 142, 75, 140, 239, 60, 167, 171, 172, 9, 185, 92, 112, 158, 229], PubkeyM.raw [3, 240, 40, 137, 43, 173, 126, 213, 125, 47, 181, 123, 243, 48, 129, 213, 207, 207, 111, 158, 211, 211, 215, 241, 89, 194, 226, 255, 245, 121, 220, 52, 26]] ∧
    (sortPubkeysDesc [PubkeyM.raw [2, 198, 4, 127, 148, 65, 237, 125, 109, 48, 69, 64, 110, 149, 192, 124, 216, 92, 119, 142, 75, 140, 239, 60, 167, 171, 172, 9, 185, 92, 112, 158, 229], PubkeyM.raw [3, 240, 40, 137, 43, 173, 126, 213, 125, 47, 181, 123, 243, 48, 129, 213, 207, 207, 111, 158, 211, 211, 215, 241, 89, 194, 226, 255, 245, 121, 220, 52, 26]]).Sorted
      (fun a b => lexLtBytes a.bytes b.bytes = false) ∧
    (sortPubkeysDesc [PubkeyM.raw [2, 198, 4, 127, 148, 65, 237, 125, 109, 48, 69, 64, 110, 149, 192, 124, 216, 92, 119, 142, 75, 140, 239, 60, 167, 171, 172, 9, 185, 92, 112, 158, 229], PubkeyM.raw [3, 240, 40, 137, 43, 173, 126, 213, 125, 47, 181, 123, 243, 48, 129, 213, 207, 207, 111, 158, 211, 211, 215, 241, 89, 194, 226, 255, 245, 121, 220, 52, 26]]).Pairwise
      (fun a b => pubkeyIsLarge a b = true ∨ a.bytes = b.bytes) :=
  claim_C1 0
    (DNode.mk
      { nodeType := DNodeType.script, scriptType := DScriptType.sortedMulti }
      [DNode.mk { nodeType := DNodeType.number, number := 1 } [] [],
       DNode.mk { nodeType := DNodeType.key, keyType := DKeyType.public, keyInfo := KeyInfoM.text (String.toList "02c6047f9441ed7d6d3045406e95c07cd85c778e4b8cef3ca7abac09b95c709ee5") } [] [],
       DNode.mk { nodeType := DNodeType.key, keyType := DKeyType.public, keyInfo := KeyInfoM.text (String.toList "03f028892bad7ed57d2fb57bf33081d5cfcf6f9ed3d3d7f159c2e2fff579dc341a") } [] []]
      [])
    none none
    [{ keyType := DKeyType.public, pubkey := PubkeyM.raw [2, 198, 4, 127, 148, 65, 237, 125, 109, 48, 69, 64, 110, 149, 192, 124, 216, 92, 119, 142, 75, 140, 239, 60, 167, 171, 172, 9, 185, 92, 112, 158, 229], schnorrPubkey := schnorrFromPubkey (PubkeyM.raw [2, 198, 4, 127, 148, 65, 237, 125, 109, 48, 69, 64, 110, 149, 192, 124, 216, 92, 119, 142, 75, 140, 239, 60, 167, 171, 172, 9, 185, 92, 112, 158, 229]) },
     { keyType := DKeyType.public, pubkey := PubkeyM.raw [3, 240, 40, 137, 43, 173, 126, 213, 125, 47, 181, 123, 243, 48, 129, 213, 207, 207, 111, 158, 211, 211, 215, 241, 89, 194, 226, 255, 245, 121, 220, 52, 26], schnorrPubkey := schnorrFromPubkey (PubkeyM.raw [3, 240, 40, 137, 43, 173, 126, 213, 125, 47, 181, 123, 243, 48, 129, 213, 207, 207, 111, 158, 211, 211, 215, 241, 89, 194, 226, 255, 245, 121, 220, 52, 26]) }]
    [PubkeyM.raw [2, 198, 4, 127, 148, 65, 237, 125, 109, 48, 69, 64, 110, 149, 192, 124, 216, 92, 119, 142, 75, 140, 239, 60, 167, 171, 172, 9, 185, 92, 112, 158, 229], PubkeyM.raw [3, 240, 40, 137, 43, 173, 126, 213, 125, 47, 181, 123, 243, 48, 129, 213, 207, 207, 111, 158, 211, 211, 215, 241, 89, 194, 226, 255, 245, 121, 220, 52, 26]]
    none
    [SElem.num 1, SElem.pushPub (PubkeyM.raw [3, 240, 40, 137, 43, 173, 126, 213, 125, 47, 181, 123, 243, 48, 129, 213, 207, 207, 111, 158, 211, 211, 215, 241, 89, 194, 226, 255, 245, 121, 220, 52, 26]), SElem.pushPub (PubkeyM.raw [2, 198, 4, 127, 148, 65, 237, 125, 109, 48, 69, 64, 110, 149, 192, 124, 216, 92, 119, 142, 75, 140, 239, 60, 167, 171, 172, 9, 185, 92, 112, 158, 229]), SElem.num 2, SElem.opCheckMultiSig]
    rfl rfl rfl rfl

-- ---------------------------------------------------------------------------
-- C6: sortedmulti is permutation-invariant, multi is not
-- ---------------------------------------------------------------------------

theorem sortedDesc_perm_unique : ∀ (l₁ l₂ : List PubkeyM),
    l₁.Perm l₂ →
    l₁.Sorted (fun a b => lexLtBytes a.bytes b.bytes = false) →
    l₂.Sorted (fun a b => lexLtBytes a.bytes b.bytes = false) →
    (∀ a ∈ l₁, ∀ b ∈ l₁, a.bytes = b.bytes → a = b) →
    l₁ = l₂
  | [], l₂, hperm, _, _, _ => hperm.nil_eq
  | a :: t₁, [], hperm, _, _, _ => by
    exact absurd hperm (by simp)
  | a :: t₁, b :: t₂, hperm, hs1, hs2, hinj => by
    have hab : a = b := by
      by_cases h : a = b
      · exact h
      · have ha2 : a ∈ b :: t₂ := hperm.mem_iff.mp (List.mem_cons_self a t₁)
        have ha2' : a ∈ t₂ := by
          cases ha2 with
          | head => exact absurd rfl h
          | tail _ hm => exact hm
        have hba : lexLtBytes b.bytes a.bytes = false :=
          (List.sorted_cons.mp hs2).1 a ha2'
        have hb1 : b ∈ a :: t₁ := hperm.symm.mem_iff.mp (List.mem_cons_self b t₂)
        have hb1' : b ∈ t₁ := by
          cases hb1 with
          | head => exact absurd rfl (fun hh => h hh.symm)
          | tail _ hm => exact hm
        have hab' : lexLtBytes a.bytes b.bytes = false :=
          (List.sorted_cons.mp hs1).1 b hb1'
        exact hinj a (List.mem_cons_self a t₁) b (List.mem_cons_of_mem a hb1')
          (lexLt_eq_of_not_lt a.bytes b.bytes hab' hba)
    subst hab
    have htail := hperm.cons_inv
    have := sortedDesc_perm_unique t₁ t₂ htail
      (List.sorted_cons.mp hs1).2 (List.sorted_cons.mp hs2).2
      (fun x hx y hy hxy => hinj x (List.mem_cons_of_mem a hx)
        y (List.mem_cons_of_mem a hy) hxy)
    rw [this]

/-- C6: permuting the pubkey list of a `sortedmulti` leaves the built
multisig locking script unchanged (the two lists sort to the same list,
given that byte-equal keys in the list are equal), while for `multi`
the built locking script determines the pubkey list: two `multi`
constructions over the same arity that emit the same script used the
same list in the same order. -/
theorem claim_C6 :
    (∀ (reqnum : Nat) (hw : Bool) (pk1 pk2 : List PubkeyM),
      pk1.Perm pk2 →
      (∀ a ∈ pk1, ∀ b ∈ pk1, a.bytes = b.bytes → a = b) →
      createMultisigRedeemScript reqnum (sortPubkeysDesc pk1) hw =
        createMultisigRedeemScript reqnum (sortPubkeysDesc pk2) hw) ∧
    (∀ (reqnum : Nat) (hw : Bool) (pk1 pk2 : List PubkeyM) (ls : ScriptM),
      createMultisigRedeemScript reqnum pk1 hw = .ok ls →
      createMultisigRedeemScript reqnum pk2 hw = .ok ls →
      pk1 = pk2) := by
  constructor
  · intro reqnum hw pk1 pk2 hperm hinj
    have hsorteq : sortPubkeysDesc pk1 = sortPubkeysDesc pk2 := by
      apply sortedDesc_perm_unique
      · exact (sortPubkeysDesc_perm pk1).trans
          (hperm.trans (sortPubkeysDesc_perm pk2).symm)
      · exact sortPubkeysDesc_sorted pk1
      · exact sortPubkeysDesc_sorted pk2
      · intro a ha b hb
        exact hinj a ((sortPubkeysDesc_perm pk1).mem_iff.mp ha)
          b ((sortPubkeysDesc_perm pk1).mem_iff.mp hb)
    rw [hsorteq]
  · intro reqnum hw pk1 pk2 ls h1 h2
    have e1 := createMultisig_ok_shape _ _ _ _ h1
    have e2 := createMultisig_ok_shape _ _ _ _ h2
    rw [e1] at e2
    have hlen : pk1.length = pk2.length := by
      have := congrArg List.length e2
      simp at this
      omega
    have hmapeq : List.map SElem.pushPub pk1 = List.map SElem.pushPub pk2 := by
      simp only [List.cons_append, List.nil_append, List.cons.injEq,
        true_and] at e2
      have := (List.append_inj e2
        (by simp [hlen] : (List.map SElem.pushPub pk1).length =
          (List.map SElem.pushPub pk2).length)).1
      exact this
    exact List.map_injective_iff.mpr
      (fun x y hxy => by injection hxy) hmapeq

set_option maxRecDepth 100000 in
/-- Witness for C6: swapping the two keys of a `sortedmulti(1, ...)`
yields the identical built script, and for `multi` the built script
pins down the key list. -/
theorem claim_C6_witness :
    (createMultisigRedeemScript 1 (sortPubkeysDesc [PubkeyM.raw [2, 198, 4, 127, 148, 65, 237, 125, 109, 48, 69, 64, 110, 149, 192, 124, 216, 92, 119, 142, 75, 140, 239, 60, 167, 171, 172, 9, 185, 92, 112, 158, 229], PubkeyM.raw [3, 240, 40, 137, 43, 173, 126, 213, 125, 47, 181, 123, 243, 48, 129, 213, 207, 207, 111, 158, 211, 211, 215, 241, 89, 194, 226, 255, 245, 121, 220, 52, 26]]) false =
      createMultisigRedeemScript 1 (sortPubkeysDesc [PubkeyM.raw [3, 240, 40, 137, 43, 173, 126, 213, 125, 47, 181, 123, 243, 48, 129, 213, 207, 207, 111, 158, 211, 211, 215, 241, 89, 194, 226, 255, 245, 121, 220, 52, 26], PubkeyM.raw [2, 198, 4, 127, 148, 65, 237, 125, 109, 48, 69, 64, 110, 149, 192, 124, 216, 92, 119, 142, 75, 140, 239, 60, 167, 171, 172, 9, 185, 92, 112, 158, 229]]) false) ∧
    ([PubkeyM.raw [2, 198, 4, 127, 148, 65, 237, 125, 109, 48, 69, 64, 110, 149, 192, 124, 216, 92, 119, 142, 75, 140, 239, 60, 167, 171, 172, 9, 185, 92, 112, 158, 229], PubkeyM.raw [3, 240, 40, 137, 43, 173, 126, 213, 125, 47, 181, 123, 243, 48, 129, 213, 207, 207, 111, 158, 211, 211, 215, 241, 89, 194, 226, 255, 245, 121, 220, 52, 26]] : List PubkeyM) = [PubkeyM.raw [2, 198, 4, 127, 148, 65, 237, 125, 109, 48, 69, 64, 110, 149, 192, 124, 216, 92, 119, 142, 75, 140, 239, 60, 167, 171, 172, 9, 185, 92, 112, 158, 229], PubkeyM.raw [3, 240, 40, 137, 43, 173, 126, 213, 125, 47, 181, 123, 243, 48, 129, 213, 207, 207, 111, 158, 211, 211, 215, 241, 89, 194, 226, 255, 245, 121, 220, 52, 26]] :=
  ⟨claim_C6.1 1 false [PubkeyM.raw [2, 198, 4, 127, 148, 65, 237, 125, 109, 48, 69, 64, 110, 149, 192, 124, 216, 92, 119, 142, 75, 140, 239, 60, 167, 171, 172, 9, 185, 92, 112, 158, 229], PubkeyM.raw [3, 240, 40, 137, 43, 173, 126, 213, 125, 47, 181, 123, 243, 48, 129, 213, 207, 207, 111, 158, 211, 211, 215, 241, 89, 194, 226, 255, 245, 121, 220, 52, 26]] [PubkeyM.raw [3, 240, 40, 137, 43, 173, 126, 213, 125, 47, 181, 123, 243, 48, 129, 213, 207, 207, 111, 158, 211, 211, 215, 241, 89, 194, 226, 255, 245, 121, 220, 52, 26], PubkeyM.raw [2, 198, 4, 127, 148, 65, 237, 125, 109, 48, 69, 64, 110, 149, 192, 124, 216, 92, 119, 142, 75, 140, 239, 60, 167, 171, 172, 9, 185, 92, 112, 158, 229]]
      (List.Perm.swap (PubkeyM.raw [3, 240, 40, 137, 43, 173, 126, 213, 125, 47, 181, 123, 243, 48, 129, 213, 207, 207, 111, 158, 211, 211, 215, 241, 89, 194, 226, 255, 245, 121, 220, 52, 26]) (PubkeyM.raw [2, 198, 4, 127, 148, 65, 237, 125, 109, 48, 69, 64, 110, 149, 192, 124, 216, 92, 119, 142, 75, 140, 239, 60, 167, 171, 172, 9, 185, 92, 112, 158, 229]) [])
      (by decide),
   claim_C6.2 1 false [PubkeyM.raw [2, 198, 4, 127, 148, 65, 237, 125, 109, 48, 69, 64, 110, 149, 192, 124, 216, 92, 119, 142, 75, 140, 239, 60, 167, 171, 172, 9, 185, 92, 112, 158, 229], PubkeyM.raw [3, 240, 40, 137, 43, 173, 126, 213, 125, 47, 181, 123, 243, 48, 129, 213, 207, 207, 111, 158, 211, 211, 215, 241, 89, 194, 226, 255, 245, 121, 220, 52, 26]] [PubkeyM.raw [2, 198, 4, 127, 148, 65, 237, 125, 109, 48, 69, 64, 110, 149, 192, 124, 216, 92, 119, 142, 75, 140, 239, 60, 167, 171, 172, 9, 185, 92, 112, 158, 229], PubkeyM.raw [3, 240, 40, 137, 43, 173, 126, 213, 125, 47, 181, 123, 243, 48, 129, 213, 207, 207, 111, 158, 211, 211, 215, 241, 89, 194, 226, 255, 245, 121, 220, 52, 26]]
      [SElem.num 1, SElem.pushPub (PubkeyM.raw [2, 198, 4, 127, 148, 65, 237, 125, 109, 48, 69, 64, 110, 149, 192, 124, 216, 92, 119, 142, 75, 140, 239, 60, 167, 171, 172, 9, 185, 92, 112, 158, 229]), SElem.pushPub (PubkeyM.raw [3, 240, 40, 137, 43, 173, 126, 213, 125, 47, 181, 123, 243, 48, 129, 213, 207, 207, 111, 158, 211, 211, 215, 241, 89, 194, 226, 255, 245, 121, 220, 52, 26]), SElem.num 2, SElem.opCheckMultiSig]
      rfl rfl⟩

-- ---------------------------------------------------------------------------
-- C3: root argument reversal and back-popping give left-to-right order
-- ---------------------------------------------------------------------------

theorem getKeyReferences_pops_back (c : DNode) (k x : ExtKeyM)
    (l : List (List Char))
    (hkt : c.data.keyType = DKeyType.bip32)
    (hki : c.data.keyInfo = KeyInfoM.ext k)
    (hna : c.data.needArgNum ≠ 0)
    (hnp : k.isPriv = false)
    (hne : l.isEmpty = false)
    (hhead : l.headD [] ≠ kArgumentBaseExtkey)
    (hder : extDerive k (l.getLastD []) = .ok x) :
    getKeyReferences c (some l) =
      .ok ({ keyType := DKeyType.bip32, pubkey := x.pubkey,
             schnorrPubkey := schnorrFromPubkey x.pubkey,
             extkey := some x, argument := l.getLastD [] },
           some l.dropLast) := by
  simp only [List.headD_eq_head?_getD] at hhead
  simp only [List.getLastD_eq_getLast?] at hder ⊢
  unfold getKeyReferences
  simp [hkt, hki, hna, hnp, hne, hhead, pure_bind, except_ok_bind, hder]

theorem multiCollect_assigns :
    ∀ (specs : List (DNode × ExtKeyM × List Char × ExtKeyM)),
    (∀ s ∈ specs, s.1.data.keyType = DKeyType.bip32 ∧
      s.1.data.keyInfo = KeyInfoM.ext s.2.1 ∧
      s.1.data.needArgNum ≠ 0 ∧
      s.2.1.isPriv = false ∧
      s.2.2.1 ≠ kArgumentBaseExtkey ∧
      extDerive s.2.1 s.2.2.1 = .ok s.2.2.2) →
    multiCollect (specs.map (fun s => s.1))
      (some ((specs.map (fun s => s.2.2.1)).reverse)) =
      .ok (specs.map (fun s =>
            { keyType := DKeyType.bip32, pubkey := s.2.2.2.pubkey,
              schnorrPubkey := schnorrFromPubkey s.2.2.2.pubkey,
              extkey := some s.2.2.2, argument := s.2.2.1 }),
           specs.map (fun s => s.2.2.2.pubkey), some [])
  | [], _ => rfl
  | s :: specs', hspec => by
    have hs := hspec s (List.mem_cons_self s specs')
    have harg : ∀ a ∈ (specs'.map (fun t => t.2.2.1)).reverse ++ [s.2.2.1],
        a ≠ kArgumentBaseExtkey := by
      intro a ha
      rw [List.mem_append, List.mem_reverse, List.mem_map] at ha
      rcases ha with ⟨t, ht, rfl⟩ | ha
      · exact (hspec t (List.mem_cons_of_mem s ht)).2.2.2.2.1
      · have : a = s.2.2.1 := by simpa using ha
        rw [this]
        exact hs.2.2.2.2.1
    have hl : (specs'.map (fun t => t.2.2.1)).reverse ++ [s.2.2.1] ≠ [] := by
      simp
    have hhead :
        ((specs'.map (fun t => t.2.2.1)).reverse ++ [s.2.2.1]).headD [] ≠
          kArgumentBaseExtkey := by
      cases hc : (specs'.map (fun t => t.2.2.1)).reverse ++ [s.2.2.1] with
      | nil => exact absurd hc hl
      | cons y ys =>
        have hy : y ∈ (specs'.map (fun t => t.2.2.1)).reverse ++ [s.2.2.1] := by
          rw [hc]
          exact List.mem_cons_self y ys
        simpa using harg y hy
    have hpop := getKeyReferences_pops_back s.1 s.2.1 s.2.2.2
      ((specs'.map (fun t => t.2.2.1)).reverse ++ [s.2.2.1])
      hs.1 hs.2.1 hs.2.2.1 hs.2.2.2.1
      (by simp)
      hhead
      (by rw [List.getLastD_concat]; exact hs.2.2.2.2.2)
    have ih := multiCollect_assigns specs'
      (fun t ht => hspec t (List.mem_cons_of_mem s ht))
    show multiCollect (s.1 :: specs'.map (fun t => t.1))
      (some ((s.2.2.1 :: specs'.map (fun t => t.2.2.1)).reverse)) = _
    rw [List.reverse_cons]
    show (getKeyReferences s.1
      (some ((specs'.map (fun t => t.2.2.1)).reverse ++ [s.2.2.1])) >>= _) = _
    rw [hpop, except_ok_bind]
    dsimp only []
    rw [List.getLastD_concat, List.dropLast_concat]
    show (multiCollect (specs'.map (fun t => t.1))
      (some ((specs'.map (fun t => t.2.2.1)).reverse)) >>= _) = _
    rw [ih, except_ok_bind]
    rfl

set_option maxHeartbeats 2000000 in
/-- C3: at the root call (`depth == 0`) an argument vector of more than
one element is reversed once (and only then); `GetKeyReferences` then
pops each wildcard argument from the back of the vector; consequently
for a root `multi` node the i-th key child (left-to-right) is derived
with the i-th caller argument, each key reference recording its own
argument. -/
theorem claim_C3 :
    (∀ l : List (List Char), 1 < l.length →
      rootReverse 0 (some l) = some l.reverse) ∧
    (∀ (d : Nat) (l : List (List Char)), ¬ (d = 0 ∧ 1 < l.length) →
      rootReverse d (some l) = some l) ∧
    (∀ (c : DNode) (k x : ExtKeyM) (l : List (List Char)),
      c.data.keyType = DKeyType.bip32 →
      c.data.keyInfo = KeyInfoM.ext k →
      c.data.needArgNum ≠ 0 →
      k.isPriv = false →
      l.isEmpty = false →
      l.headD [] ≠ kArgumentBaseExtkey →
      extDerive k (l.getLastD []) = .ok x →
      getKeyReferences c (some l) =
        .ok ({ keyType := DKeyType.bip32, pubkey := x.pubkey,
               schnorrPubkey := schnorrFromPubkey x.pubkey,
               extkey := some x, argument := l.getLastD [] },
             some l.dropLast)) ∧
    (∀ (fuel : Nat) (node : DNode) (parent? : Option DNode) (c0 : DNode)
      (specs : List (DNode × ExtKeyM × List Char × ExtKeyM)) (ls : ScriptM),
      node.data.nodeType = .script →
      node.data.scriptType = .multi →
      node.data.depth = 0 →
      node.childNode = c0 :: specs.map (fun s => s.1) →
      1 < (specs.map (fun s => s.2.2.1)).length →
      (∀ s ∈ specs, s.1.data.keyType = DKeyType.bip32 ∧
        s.1.data.keyInfo = KeyInfoM.ext s.2.1 ∧
        s.1.data.needArgNum ≠ 0 ∧
        s.2.1.isPriv = false ∧
        s.2.2.1 ≠ kArgumentBaseExtkey ∧
        extDerive s.2.1 s.2.2.1 = .ok s.2.2.2) →
      createMultisigRedeemScript c0.data.number
        (specs.map (fun s => s.2.2.2.pubkey))
        (match parent? with
          | some p => p.data.scriptType = .wsh
          | none => false) = .ok ls →
      getReferences (fuel + 1) node (some (specs.map (fun s => s.2.2.1)))
          parent? =
        .ok ([refKeys ls DScriptType.multi
          (specs.map (fun s =>
            { keyType := DKeyType.bip32, pubkey := s.2.2.2.pubkey,
              schnorrPubkey := schnorrFromPubkey s.2.2.2.pubkey,
              extkey := some s.2.2.2, argument := s.2.2.1 }))
          c0.data.number], some [])) := by
  refine ⟨?_, ?_, getKeyReferences_pops_back, ?_⟩
  · intro l hl
    simp [rootReverse, hl]
  · intro d l hdl
    simp only [rootReverse]
    rw [if_neg hdl]
  · intro fuel node parent? c0 specs ls hnt hst hdepth hchild hlen hspec hms
    rw [getReferences.eq_def]
    simp only [hnt, hst, hchild, hdepth]
    simp only [if_true]
    have hrev : rootReverse 0 (some (specs.map (fun s => s.2.2.1))) =
        some ((specs.map (fun s => s.2.2.1)).reverse) := by
      simp only [rootReverse]
      rw [if_pos (And.intro (by trivial) hlen)]
    rw [hrev]
    simp only [List.drop_succ_cons, List.drop_zero, List.headD_cons]
    rw [multiCollect_assigns specs hspec, except_ok_bind]
    dsimp only []
    simp only [reduceCtorEq, ite_false, if_false, Bool.false_eq_true]
    rw [hms, except_ok_bind]
    rfl

set_option maxRecDepth 100000 in
/-- Witness for C3: the root reversal on `["3","5"]`; a key node popping
`"7"` from the back; and the spec example `multi(2, xpubA/0/*, xpubB/1/*)`
with arguments `["3","5"]` deriving `/0/3` for the first key and `/1/5`
for the second, in that order. -/
theorem claim_C3_witness :
    rootReverse 0 (some [['3'], ['5']]) = some [['5'], ['3']] ∧
    rootReverse 1 (some [['3'], ['5']]) = some [['3'], ['5']] ∧
    getKeyReferences (DNode.mk { nodeType := DNodeType.key, keyType := DKeyType.bip32, keyInfo := KeyInfoM.ext ⟨false, String.toList "xpubAAAA", [['0']]⟩, needArgNum := 1 } [] []) (some [['7']]) =
      .ok ({ keyType := DKeyType.bip32, pubkey := PubkeyM.derived (String.toList "xpubAAAA") [['0'], ['7']], schnorrPubkey := schnorrFromPubkey (PubkeyM.derived (String.toList "xpubAAAA") [['0'], ['7']]), extkey := some ⟨false, String.toList "xpubAAAA", [['0'], ['7']]⟩, argument := ['7'] },
           some []) ∧
    getReferences 1
      (DNode.mk { nodeType := DNodeType.script, scriptType := DScriptType.multi, depth := 0 } [(DNode.mk { nodeType := DNodeType.number, number := 2 } [] []),
       (DNode.mk { nodeType := DNodeType.key, keyType := DKeyType.bip32, keyInfo := KeyInfoM.ext ⟨false, String.toList "xpubAAAA", [['0']]⟩, needArgNum := 1 } [] []),
       (DNode.mk { nodeType := DNodeType.key, keyType := DKeyType.bip32, keyInfo := KeyInfoM.ext ⟨false, String.toList "xpubBBBB", [['1']]⟩, needArgNum := 1 } [] [])] [])
      (some [['3'], ['5']]) none =
      .ok ([refKeys [SElem.num 2, SElem.pushPub (PubkeyM.derived (String.toList "xpubAAAA") [['0'], ['3']]), SElem.pushPub (PubkeyM.derived (String.toList "xpubBBBB") [['1'], ['5']]), SElem.num 2, SElem.opCheckMultiSig] DScriptType.multi
        [{ keyType := DKeyType.bip32, pubkey := PubkeyM.derived (String.toList "xpubAAAA") [['0'], ['3']], schnorrPubkey := schnorrFromPubkey (PubkeyM.derived (String.toList "xpubAAAA") [['0'], ['3']]), extkey := some ⟨false, String.toList "xpubAAAA", [['0'], ['3']]⟩, argument := ['3'] },
         { keyType := DKeyType.bip32, pubkey := PubkeyM.derived (String.toList "xpubBBBB") [['1'], ['5']], schnorrPubkey := schnorrFromPubkey (PubkeyM.derived (String.toList "xpubBBBB") [['1'], ['5']]), extkey := some ⟨false, String.toList "xpubBBBB", [['1'], ['5']]⟩, argument := ['5'] }]
        2], some []) :=
  ⟨claim_C3.1 [['3'], ['5']] (by decide),
   claim_C3.2.1 1 [['3'], ['5']] (by decide),
   claim_C3.2.2.1 (DNode.mk { nodeType := DNodeType.key, keyType := DKeyType.bip32, keyInfo := KeyInfoM.ext ⟨false, String.toList "xpubAAAA", [['0']]⟩, needArgNum := 1 } [] [])
     ⟨false, String.toList "xpubAAAA", [['0']]⟩
     ⟨false, String.toList "xpubAAAA", [['0'], ['7']]⟩
     [['7']]
     rfl rfl (by decide) rfl rfl (by decide) rfl,
   claim_C3.2.2.2 0
     (DNode.mk { nodeType := DNodeType.script, scriptType := DScriptType.multi, depth := 0 } [(DNode.mk { nodeType := DNodeType.number, number := 2 } [] []),
       (DNode.mk { nodeType := DNodeType.key, keyType := DKeyType.bip32, keyInfo := KeyInfoM.ext ⟨false, String.toList "xpubAAAA", [['0']]⟩, needArgNum := 1 } [] []),
       (DNode.mk { nodeType := DNodeType.key, keyType := DKeyType.bip32, keyInfo := KeyInfoM.ext ⟨false, String.toList "xpubBBBB", [['1']]⟩, needArgNum := 1 } [] [])] [])
     none
     (DNode.mk { nodeType := DNodeType.number, number := 2 } [] [])
     [((DNode.mk { nodeType := DNodeType.key, keyType := DKeyType.bip32, keyInfo := KeyInfoM.ext ⟨false, String.toList "xpubAAAA", [['0']]⟩, needArgNum := 1 } [] []), ⟨false, String.toList "xpubAAAA", [['0']]⟩, ['3'], ⟨false, String.toList "xpubAAAA", [['0'], ['3']]⟩),
     ((DNode.mk { nodeType := DNodeType.key, keyType := DKeyType.bip32, keyInfo := KeyInfoM.ext ⟨false, String.toList "xpubBBBB", [['1']]⟩, needArgNum := 1 } [] []), ⟨false, String.toList "xpubBBBB", [['1']]⟩, ['5'], ⟨false, String.toList "xpubBBBB", [['1'], ['5']]⟩)]
     [SElem.num 2, SElem.pushPub (PubkeyM.derived (String.toList "xpubAAAA") [['0'], ['3']]), SElem.pushPub (PubkeyM.derived (String.toList "xpubBBBB") [['1'], ['5']]), SElem.num 2, SElem.opCheckMultiSig]
     rfl rfl rfl rfl (by decide)
     (by
       intro s hs
       simp only [List.mem_cons, List.not_mem_nil, or_false] at hs
       rcases hs with rfl | rfl
       · exact ⟨rfl, rfl, by decide, rfl, by decide, rfl⟩
       · exact ⟨rfl, rfl, by decide, rfl, by decide, rfl⟩)
     rfl⟩

-- ---------------------------------------------------------------------------
-- C10: Parse test-evaluates the analyzed tree with "0" per wildcard
-- ---------------------------------------------------------------------------

theorem descriptorNodeParse_eq (s : List Char) :
    descriptorNodeParse s =
      (analyzeChild (s.length + 1) (dnodeNew { nodeType := .script }) s 0 >>=
       fun node1 => analyzeAll (s.length + 1) [] node1 >>=
       fun node2 =>
         getReference (nodeDepth node2) node2
           (some (List.replicate (getNeedArgumentNum node2)
             (String.toList "0"))) none >>=
       fun _ => pure node2) := rfl

set_option maxRecDepth 100000 in
set_option maxHeartbeats 4000000 in
/-- C10: `Parse` runs `AnalyzeChild`, `AnalyzeAll`, and then a script
generation test handing `"0"` for every needed argument: an evaluator
error on the all-zeros vector becomes the result of `Parse`; a
successful `Parse` implies both analysis stages and the all-zeros
evaluation succeeded on the returned tree; and `pkh(ypubAAAAA)`
analyzes fine but `Parse` rejects it with the evaluator's
BIP49-format error. -/
theorem claim_C10 :
    (∀ (s : List Char) (node1 node2 : DNode) (e : DErr),
      analyzeChild (s.length + 1) (dnodeNew { nodeType := .script }) s 0 =
        .ok node1 →
      analyzeAll (s.length + 1) [] node1 = .ok node2 →
      getReference (nodeDepth node2) node2
        (some (List.replicate (getNeedArgumentNum node2)
          (String.toList "0"))) none = .error e →
      descriptorParse s = .error e) ∧
    (∀ (s : List Char) (node2 : DNode),
      descriptorParse s = .ok node2 →
      ∃ node1,
        analyzeChild (s.length + 1) (dnodeNew { nodeType := .script }) s 0 =
          .ok node1 ∧
        analyzeAll (s.length + 1) [] node1 = .ok node2 ∧
        (getReference (nodeDepth node2) node2
          (some (List.replicate (getNeedArgumentNum node2)
            (String.toList "0"))) none).isOk = true) ∧
    ((analyzeChild (String.toList "pkh(ypubAAAAA)").length.succ
        (dnodeNew { nodeType := .script })
        (String.toList "pkh(ypubAAAAA)") 0 >>=
      analyzeAll (String.toList "pkh(ypubAAAAA)").length.succ []).isOk =
        true ∧
      descriptorParse (String.toList "pkh(ypubAAAAA)") =
        .error .bipFormatPkh) := by
  refine ⟨?_, ?_, by constructor <;> rfl⟩
  · intro s node1 node2 e hc ha hg
    show descriptorNodeParse s = .error e
    rw [descriptorNodeParse_eq, hc, except_ok_bind, ha, except_ok_bind, hg]
    rfl
  · intro s node2 h
    rw [show descriptorParse s = descriptorNodeParse s from rfl,
      descriptorNodeParse_eq] at h
    cases hc : analyzeChild (s.length + 1)
        (dnodeNew { nodeType := .script }) s 0 with
    | error e => rw [hc] at h; cases h
    | ok node1 =>
      rw [hc, except_ok_bind] at h
      cases ha : analyzeAll (s.length + 1) [] node1 with
      | error e => rw [ha] at h; cases h
      | ok node2a =>
        rw [ha, except_ok_bind] at h
        cases hg : getReference (nodeDepth node2a) node2a
            (some (List.replicate (getNeedArgumentNum node2a)
              (String.toList "0"))) none with
        | error e => rw [hg] at h; cases h
        | ok pr =>
          rw [hg, except_ok_bind] at h
          have h2 : (Except.ok node2a : Except DErr DNode) =
              Except.ok node2 := h
          have : node2a = node2 := Except.ok.inj h2
          subst this
          exact ⟨node1, rfl, ha, by rw [hg]; rfl⟩

set_option maxRecDepth 100000 in
set_option maxHeartbeats 4000000 in
/-- Witness for C10: `pkh(ypubAAAAA)` analyzes to a tree whose all-zeros
test evaluation throws the BIP49 gate error, so `Parse` returns exactly
that error; and the successfully parsed `raw(00)` satisfies the
analysis-plus-evaluation decomposition. -/
theorem claim_C10_witness :
    descriptorParse (String.toList "pkh(ypubAAAAA)") =
      .error .bipFormatPkh ∧
    (∃ node1,
      analyzeChild ((String.toList "raw(00)").length + 1)
          (dnodeNew { nodeType := .script }) (String.toList "raw(00)") 0 =
        .ok node1 ∧
      analyzeAll ((String.toList "raw(00)").length + 1) [] node1 =
        .ok (DNode.mk { name := String.toList "raw", value := String.toList "00", keyInfo := KeyInfoM.text [], isUncompressedKey := false, baseExtkey := none, tweakSum := [], number := 0, checksum := [], depth := 0, needArgNum := 0, nodeType := DNodeType.script, scriptType := DScriptType.raw, keyType := DKeyType.null, parentKind := [] } [] []) ∧
      (getReference (nodeDepth (DNode.mk { name := String.toList "raw", value := String.toList "00", keyInfo := KeyInfoM.text [], isUncompressedKey := false, baseExtkey := none, tweakSum := [], number := 0, checksum := [], depth := 0, needArgNum := 0, nodeType := DNodeType.script, scriptType := DScriptType.raw, keyType := DKeyType.null, parentKind := [] } [] []))
        (DNode.mk { name := String.toList "raw", value := String.toList "00", keyInfo := KeyInfoM.text [], isUncompressedKey := false, baseExtkey := none, tweakSum := [], number := 0, checksum := [], depth := 0, needArgNum := 0, nodeType := DNodeType.script, scriptType := DScriptType.raw, keyType := DKeyType.null, parentKind := [] } [] [])
        (some (List.replicate (getNeedArgumentNum (DNode.mk { name := String.toList "raw", value := String.toList "00", keyInfo := KeyInfoM.text [], isUncompressedKey := false, baseExtkey := none, tweakSum := [], number := 0, checksum := [], depth := 0, needArgNum := 0, nodeType := DNodeType.script, scriptType := DScriptType.raw, keyType := DKeyType.null, parentKind := [] } [] []))
          (String.toList "0"))) none).isOk = true) :=
  ⟨claim_C10.1 (String.toList "pkh(ypubAAAAA)")
      (DNode.mk { name := String.toList "pkh", value := String.toList "ypubAAAAA", keyInfo := KeyInfoM.text [], isUncompressedKey := false, baseExtkey := none, tweakSum := [], number := 0, checksum := [], depth := 0, needArgNum := 0, nodeType := DNodeType.script, scriptType := DScriptType.null, keyType := DKeyType.null, parentKind := [] }
      [DNode.mk { name := [], value := String.toList "ypubAAAAA", keyInfo := KeyInfoM.text [], isUncompressedKey := false, baseExtkey := none, tweakSum := [], number := 0, checksum := [], depth := 1, needArgNum := 0, nodeType := DNodeType.key, scriptType := DScriptType.null, keyType := DKeyType.null, parentKind := [] } [] []]
      [])
      (DNode.mk { name := String.toList "pkh", value := String.toList "ypubAAAAA", keyInfo := KeyInfoM.text [], isUncompressedKey := false, baseExtkey := none, tweakSum := [], number := 0, checksum := [], depth := 0, needArgNum := 0, nodeType := DNodeType.script, scriptType := DScriptType.pkh, keyType := DKeyType.null, parentKind := [] }
      [DNode.mk { name := [], value := String.toList "ypubAAAAA", keyInfo := KeyInfoM.ext ⟨false, String.toList "ypubAAAAA", []⟩, isUncompressedKey := false, baseExtkey := some ⟨false, String.toList "ypubAAAAA", []⟩, tweakSum := [], number := 0, checksum := [], depth := 1, needArgNum := 0, nodeType := DNodeType.key, scriptType := DScriptType.null, keyType := DKeyType.bip32, parentKind := [] } [] []]
      [])
      .bipFormatPkh rfl rfl rfl,
   claim_C10.2.1 (String.toList "raw(00)")
      (DNode.mk { name := String.toList "raw", value := String.toList "00", keyInfo := KeyInfoM.text [], isUncompressedKey := false, baseExtkey := none, tweakSum := [], number := 0, checksum := [], depth := 0, needArgNum := 0, nodeType := DNodeType.script, scriptType := DScriptType.raw, keyType := DKeyType.null, parentKind := [] } [] [])
      rfl⟩

-- ---------------------------------------------------------------------------
-- C4: need_argument_num is a sufficient arity, but not minimal in general
-- ---------------------------------------------------------------------------

theorem descriptorParse_ok_getReference (s : List Char) (node : DNode)
    (h : descriptorParse s = .ok node) :
    ∃ pr, getReference (nodeDepth node) node
      (some (List.replicate (getNeedArgumentNum node)
        (String.toList "0"))) none = .ok pr := by
  rw [show descriptorParse s = descriptorNodeParse s from rfl,
    descriptorNodeParse_eq] at h
  cases hc : analyzeChild (s.length + 1)
      (dnodeNew { nodeType := .script }) s 0 with
  | error e => rw [hc] at h; cases h
  | ok node1 =>
    rw [hc, except_ok_bind] at h
    cases ha : analyzeAll (s.length + 1) [] node1 with
    | error e => rw [ha] at h; cases h
    | ok node2a =>
      rw [ha, except_ok_bind] at h
      cases hg : getReference (nodeDepth node2a) node2a
          (some (List.replicate (getNeedArgumentNum node2a)
            (String.toList "0"))) none with
      | error e => rw [hg] at h; cases h
      | ok pr =>
        rw [hg, except_ok_bind] at h
        have h2 : (Except.ok node2a : Except DErr DNode) = Except.ok node := h
        have h3 : node2a = node := Except.ok.inj h2
        subst h3
        exact ⟨pr, hg⟩

theorem descriptorLockingScript_eq (root : DNode) (args : List (List Char)) :
    descriptorLockingScript root args =
      (((getReferences (nodeDepth root) root (some args) none >>=
          fun p => pure p.1) >>=
         fun refs => pure (refs.map DScriptRef.lockingScript)) >>=
        fun scripts =>
          match scripts with
          | sc :: _ => pure sc
          | [] => throw .emptyResult) := rfl

/-- C4 (amended): `need_argument_num` is a sufficient arity — for every
successfully parsed descriptor the all-zeros vector of exactly that
length makes `locking_script` succeed — and the argument-free
`GetLockingScript()` refuses any tree whose `need_argument_num` is
non-zero.  (It is not the exact minimum: duplicated tapleaf expressions
are counted once per occurrence by `GetNeedArgumentNum` but evaluated
once, see the counterexample.) -/
theorem claim_C4 :
    (∀ (s : List Char) (node : DNode),
      descriptorParse s = .ok node →
      (descriptorLockingScript node
        (List.replicate (getNeedArgumentNum node)
          (String.toList "0"))).isOk = true) ∧
    (∀ node : DNode, getNeedArgumentNum node ≠ 0 →
      (descriptorLockingScriptNoArg node).isOk = false) := by
  constructor
  · intro s node h
    obtain ⟨pr, hg⟩ := descriptorParse_ok_getReference s node h
    unfold getReference at hg
    cases hr : getReferences (nodeDepth node) node
        (some (List.replicate (getNeedArgumentNum node)
          (String.toList "0"))) none with
    | error e => rw [hr] at hg; cases hg
    | ok p =>
      rw [hr, except_ok_bind] at hg
      rw [descriptorLockingScript_eq, hr, except_ok_bind]
      obtain ⟨refs, args2⟩ := p
      cases refs with
      | nil => cases hg
      | cons r rest => rfl
  · intro node hn
    unfold descriptorLockingScriptNoArg descriptorNeedArgumentNum
    rw [if_pos hn]
    rfl

set_option maxHeartbeats 2000000 in
theorem analyzeAll_tr_shape (fuel : Nat) (parentName : List Char)
    (node : DNode) (a b c0' : DNode) (pk : PubkeyM) (ta' : ArgsM)
    (c1' : DNode) (br : TapBranchM × ArgsM)
    (hnt : node.data.nodeType = .script)
    (hname : node.data.name = "tr".toList)
    (hdepth : node.data.depth = 0)
    (hab : node.childNode = [a, b])
    (ha0 : analyzeAll fuel ("tr".toList)
      (a.withData { a.data with nodeType := .key, parentKind := "tr".toList }) = .ok c0')
    (hpk : getPubkey c0' (some [String.toList "0"]) = .ok (pk, ta'))
    (hcomp : pk.isCompress = true)
    (hast : analyzeScriptTree fuel
      (b.withData { b.data with parentKind := "tr".toList }) = .ok c1')
    (htb : getTapBranch (nodeDepth c1') c1'
      (some (ta'.getD [] ++
        List.replicate (getNeedArgumentNum c1') (String.toList "0"))) =
      .ok br) :
    analyzeAll (fuel + 1) parentName node =
      .ok (DNode.mk { node.data with scriptType := .taproot } [c0', c1']
        node.treeNode) := by
  have htab : kDescriptorNodeScriptTable.find?
      (fun e => e.name = "tr".toList) =
      some ⟨"tr".toList, .taproot, true, true, false⟩ := rfl
  rw [analyzeAll.eq_def]
  simp only [hnt, hname, hdepth, hab]
  rw [htab]
  simp only [if_true]
  rw [if_neg (by decide : ¬ (DNodeType.script = DNodeType.number)),
      if_neg (by decide : ¬ (DNodeType.script = DNodeType.key)),
      if_neg (by decide : ¬ (("tr".toList : List Char) = [])),
      if_neg (by decide : ¬ (True ∧ (0 : Nat) ≠ 0)),
      if_neg (by simp : ¬ ([a, b].isEmpty = true)),
      if_neg (by decide : ¬ (false = true)),
      if_neg (by decide : ¬ (("tr".toList : List Char) = "addr".toList)),
      if_neg (by decide : ¬ (("tr".toList : List Char) = "raw".toList)),
      if_neg (by simp : ¬ ([a, b].length ≠ 1 ∧ [a, b].length ≠ 2))]
  simp only [List.headD_cons, List.getD_cons_succ, List.getD_cons_zero]
  rw [ha0, except_ok_bind]
  rw [hpk, except_ok_bind]
  dsimp only []
  rw [hcomp]
  rw [if_neg (by decide : ¬ ((!true) = true)),
      if_pos (by simp : ([a, b].length = 2))]
  rw [hast, except_ok_bind]
  rw [htb, except_ok_bind]
  rfl

set_option maxRecDepth 1000000 in
set_option maxHeartbeats 8000000 in
theorem c4_step_child :
    analyzeChild (c4Trs.length + 1) (dnodeNew { nodeType := .script })
      c4Trs 0 = .ok c4Nc := rfl

set_option maxRecDepth 1000000 in
set_option maxHeartbeats 8000000 in
theorem c4_step_key :
    analyzeAll c4Trs.length ("tr".toList)
      (c4A.withData { c4A.data with nodeType := .key, parentKind := "tr".toList }) =
      .ok c4C0 := rfl

set_option maxRecDepth 1000000 in
set_option maxHeartbeats 8000000 in
theorem c4_step_pk :
    getPubkey c4C0 (some [String.toList "0"]) =
      .ok (PubkeyM.derived (String.toList "xpubAAAA") [],
           some [String.toList "0"]) := rfl

set_option maxRecDepth 1000000 in
set_option maxHeartbeats 8000000 in
theorem c4_step_tree :
    analyzeScriptTree c4Trs.length
      (c4B.withData { c4B.data with parentKind := "tr".toList }) =
      .ok c4Tree := rfl

set_option maxRecDepth 1000000 in
set_option maxHeartbeats 8000000 in
theorem c4_step_branch :
    getTapBranch (nodeDepth c4Tree) c4Tree
      (some ((some [String.toList "0"]).getD [] ++
        List.replicate (getNeedArgumentNum c4Tree) (String.toList "0"))) =
      .ok (c4Branch, some [String.toList "0", String.toList "0"]) := rfl

set_option maxRecDepth 1000000 in
set_option maxHeartbeats 8000000 in
theorem c4_step_all :
    analyzeAll (c4Trs.length + 1) [] c4Nc = .ok c4Nt :=
  analyzeAll_tr_shape c4Trs.length [] c4Nc c4A c4B c4C0
    (PubkeyM.derived (String.toList "xpubAAAA") []) (some [String.toList "0"])
    c4Tree (c4Branch, some [String.toList "0", String.toList "0"])
    rfl rfl rfl rfl c4_step_key c4_step_pk rfl c4_step_tree c4_step_branch

set_option maxRecDepth 1000000 in
set_option maxHeartbeats 8000000 in
theorem c4_step_ref :
    (getReference (nodeDepth c4Nt) c4Nt
      (some (List.replicate (getNeedArgumentNum c4Nt)
        (String.toList "0"))) none).isOk = true := rfl

set_option maxRecDepth 1000000 in
set_option maxHeartbeats 8000000 in
theorem c4_parse : descriptorParse c4Trs = .ok c4Nt := by
  rw [show descriptorParse c4Trs = descriptorNodeParse c4Trs from rfl,
    descriptorNodeParse_eq]
  rw [c4_step_child, except_ok_bind]
  rw [c4_step_all, except_ok_bind]
  cases hg : getReference (nodeDepth c4Nt) c4Nt
      (some (List.replicate (getNeedArgumentNum c4Nt)
        (String.toList "0"))) none with
  | error e =>
    have h := c4_step_ref
    rw [hg] at h
    cases h
  | ok pr =>
    rw [except_ok_bind]
    rfl

set_option maxRecDepth 1000000 in
set_option maxHeartbeats 8000000 in
/-- C4 counterexample: the parsed
`tr(xpubAAAA,\x7bpk(xpubBBBB/*),pk(xpubBBBB/*)\x7d)` reports
`need_argument_num = 2` (the duplicated tapleaf is counted per
occurrence) yet `locking_script` already succeeds on the shorter vector
`["0"]` (the tapleaf map deduplicates the leaf before evaluation), so
`need_argument_num` is not the minimum successful arity. -/
theorem claim_C4_counterexample :
    descriptorParse c4Trs = .ok c4Nt ∧
    getNeedArgumentNum c4Nt = 2 ∧
    (descriptorLockingScript c4Nt [String.toList "0"]).isOk = true :=
  ⟨c4_parse, rfl, rfl⟩

set_option maxRecDepth 1000000 in
set_option maxHeartbeats 8000000 in
/-- Witness for C4: the parsed `raw(00)` satisfies the sufficiency part
(its zero-length all-zeros vector succeeds), and the C4 tree with
`need_argument_num = 2` is refused by the argument-free
`GetLockingScript()`. -/
theorem claim_C4_witness :
    (descriptorLockingScript
      (DNode.mk { name := String.toList "raw", value := String.toList "00", keyInfo := KeyInfoM.text [], isUncompressedKey := false, baseExtkey := none, tweakSum := [], number := 0, checksum := [], depth := 0, needArgNum := 0, nodeType := DNodeType.script, scriptType := DScriptType.raw, keyType := DKeyType.null, parentKind := [] } [] [])
      (List.replicate (getNeedArgumentNum
        (DNode.mk { name := String.toList "raw", value := String.toList "00", keyInfo := KeyInfoM.text [], isUncompressedKey := false, baseExtkey := none, tweakSum := [], number := 0, checksum := [], depth := 0, needArgNum := 0, nodeType := DNodeType.script, scriptType := DScriptType.raw, keyType := DKeyType.null, parentKind := [] } [] []))
        (String.toList "0"))).isOk = true ∧
    (descriptorLockingScriptNoArg c4Nt).isOk = false :=
  ⟨claim_C4.1 (String.toList "raw(00)")
    (DNode.mk { name := String.toList "raw", value := String.toList "00", keyInfo := KeyInfoM.text [], isUncompressedKey := false, baseExtkey := none, tweakSum := [], number := 0, checksum := [], depth := 0, needArgNum := 0, nodeType := DNodeType.script, scriptType := DScriptType.raw, keyType := DKeyType.null, parentKind := [] } [] [])
    rfl,
   claim_C4.2 c4Nt (by decide)⟩

-- ---------------------------------------------------------------------------
-- C2: to_string(true) appends the canonical checksum; round-trip holds
-- exactly for the canonical checksummed form
-- ---------------------------------------------------------------------------

set_option maxRecDepth 1000000 in
set_option maxHeartbeats 8000000 in
/-- C2 counterexample: the valid checksum-less descriptor
`pk(02c6047f9441ed7d6d3045406e95c07cd85c778e4b8cef3ca7abac09b95c709ee5)`
parses, but `to_string(true)` returns it with `#3dt5nkzl` appended —
not the input string. -/
theorem claim_C2_counterexample :
    (descriptorParse (String.toList "pk(02c6047f9441ed7d6d3045406e95c07cd85c778e4b8cef3ca7abac09b95c709ee5)")).map
      (fun n => descriptorToString n true) =
      .ok (String.toList "pk(02c6047f9441ed7d6d3045406e95c07cd85c778e4b8cef3ca7abac09b95c709ee5)#3dt5nkzl") ∧
    String.toList "pk(02c6047f9441ed7d6d3045406e95c07cd85c778e4b8cef3ca7abac09b95c709ee5)#3dt5nkzl" ≠
      String.toList "pk(02c6047f9441ed7d6d3045406e95c07cd85c778e4b8cef3ca7abac09b95c709ee5)" :=
  ⟨rfl, by decide⟩

set_option maxRecDepth 1000000 in
set_option maxHeartbeats 8000000 in
/-- C2 (amended): for any root node (`depth = 0`), `to_string(true)` is
`to_string(false)` — the canonical body re-serialization — followed by
`#` and the freshly computed checksum of that body (when computable);
so `parse(d).to_string(true)` returns `d` itself exactly when `d`
already is this canonical checksummed serialization, as the
checksummed `pk` descriptor demonstrates. -/
theorem claim_C2 :
    (∀ (node : DNode), node.data.depth = 0 →
      descriptorToString node true =
        (if generateChecksum (descriptorToString node false) ≠ [] then
          descriptorToString node false ++ ['#'] ++
            generateChecksum (descriptorToString node false)
         else descriptorToString node false)) ∧
    ((descriptorParse (String.toList "pk(02c6047f9441ed7d6d3045406e95c07cd85c778e4b8cef3ca7abac09b95c709ee5)#3dt5nkzl")).map
      (fun n => descriptorToString n true) =
      .ok (String.toList "pk(02c6047f9441ed7d6d3045406e95c07cd85c778e4b8cef3ca7abac09b95c709ee5)#3dt5nkzl")) := by
  constructor
  · intro node h
    obtain ⟨d, kids, tree⟩ := node
    have hfalse : nodeToString (DNode.mk d kids tree) false =
        (if d.name = [] ∨ d.name = "miniscript".toList then d.value
         else if kids.isEmpty then d.name ++ ['('] ++ d.value ++ [')']
         else d.name ++ ['('] ++ nodeToStringList kids [] ++ [')']) := by
      rw [nodeToString.eq_def]
      dsimp only []
      rw [if_neg (fun hc => Bool.false_ne_true hc.2)]
    show nodeToString (DNode.mk d kids tree) true = _
    rw [nodeToString.eq_def]
    dsimp only []
    rw [if_pos (And.intro (show d.depth = 0 from h) rfl)]
    rw [show descriptorToString (DNode.mk d kids tree) false =
      nodeToString (DNode.mk d kids tree) false from rfl, hfalse]
  · rfl

set_option maxRecDepth 1000000 in
set_option maxHeartbeats 8000000 in
/-- Witness for C2: the parsed `raw(00)` node renders with its computed
checksum appended. -/
theorem claim_C2_witness :
    descriptorToString (DNode.mk { name := String.toList "raw", value := String.toList "00", keyInfo := KeyInfoM.text [], isUncompressedKey := false, baseExtkey := none, tweakSum := [], number := 0, checksum := [], depth := 0, needArgNum := 0, nodeType := DNodeType.script, scriptType := DScriptType.raw, keyType := DKeyType.null, parentKind := [] } [] []) true =
      (if generateChecksum (descriptorToString (DNode.mk { name := String.toList "raw", value := String.toList "00", keyInfo := KeyInfoM.text [], isUncompressedKey := false, baseExtkey := none, tweakSum := [], number := 0, checksum := [], depth := 0, needArgNum := 0, nodeType := DNodeType.script, scriptType := DScriptType.raw, keyType := DKeyType.null, parentKind := [] } [] []) false) ≠ [] then
        descriptorToString (DNode.mk { name := String.toList "raw", value := String.toList "00", keyInfo := KeyInfoM.text [], isUncompressedKey := false, baseExtkey := none, tweakSum := [], number := 0, checksum := [], depth := 0, needArgNum := 0, nodeType := DNodeType.script, scriptType := DScriptType.raw, keyType := DKeyType.null, parentKind := [] } [] []) false ++ ['#'] ++
          generateChecksum (descriptorToString (DNode.mk { name := String.toList "raw", value := String.toList "00", keyInfo := KeyInfoM.text [], isUncompressedKey := false, baseExtkey := none, tweakSum := [], number := 0, checksum := [], depth := 0, needArgNum := 0, nodeType := DNodeType.script, scriptType := DScriptType.raw, keyType := DKeyType.null, parentKind := [] } [] []) false)
       else descriptorToString (DNode.mk { name := String.toList "raw", value := String.toList "00", keyInfo := KeyInfoM.text [], isUncompressedKey := false, baseExtkey := none, tweakSum := [], number := 0, checksum := [], depth := 0, needArgNum := 0, nodeType := DNodeType.script, scriptType := DScriptType.raw, keyType := DKeyType.null, parentKind := [] } [] []) false) :=
  claim_C2.1 (DNode.mk { name := String.toList "raw", value := String.toList "00", keyInfo := KeyInfoM.text [], isUncompressedKey := false, baseExtkey := none, tweakSum := [], number := 0, checksum := [], depth := 0, needArgNum := 0, nodeType := DNodeType.script, scriptType := DScriptType.raw, keyType := DKeyType.null, parentKind := [] } [] []) rfl
